import Mathlib

/-!
A shallow embedding of `browser_audio_switcher.py` (Browser Audio Switcher).

The program manages three browser instances (1 = Vivaldi, 2 = Chrome,
3 = Brave), a global registry of their window ids (`browser_windows`), and
adjusts PulseAudio playback / capture streams when one browser is activated.

Conventions of the embedding:
* Python dictionaries for streams become the `AStream` structure whose fields
  are `Option String` (a missing key is `none`); `d.get(k, '')` is
  `(o.getD "")`.
* Python string truthiness (`if s:`) is `otruthy` (`none` and `""` are falsy).
* Side effects (`pactl set-sink-input-volume`, `pactl set-source-output-mute`,
  window focus requests, inventory fetches) are recorded as an `Act` trace.
* An uncaught Python exception (the `UnboundLocalError` on `active_pid`, or a
  `ValueError` from `int()`) is an `Except.error`; the actions performed
  before the raise are kept in the returned trace.
* External tools (wmctrl, xprop, pactl) are an `Env` of pure functions; the
  textual pactl dumps are lists of lines.
-/

/-- Is `n` a prefix of the second list? -/
def listPrefixOf : List Char → List Char → Bool
  | [], _ => true
  | _ :: _, [] => false
  | a :: n, b :: h => a == b && listPrefixOf n h

/-- Is `n` a contiguous sublist of `h`? -/
def listInfixOf (n : List Char) : List Char → Bool
  | [] => n.isEmpty
  | c :: rest => listPrefixOf n (c :: rest) || listInfixOf n rest

/-- Python `needle in hay` for strings: substring containment. -/
def pyIn (needle hay : String) : Bool :=
  listInfixOf needle.data hay.data

/-- Python `s.strip()`: drop whitespace from both ends. -/
def pyStrip (s : String) : String :=
  String.mk
    (((s.data.dropWhile Char.isWhitespace).reverse.dropWhile
      Char.isWhitespace).reverse)

/-- Python `s.startswith(pre)`. -/
def pyStartsWith (pre s : String) : Bool :=
  listPrefixOf pre.data s.data

/-- Python `s.lower()` (ASCII case folding suffices for the names here). -/
def pyLower (s : String) : String :=
  String.mk (s.data.map Char.toLower)

/-- Python `line.split("#")[1]`: the text between the first and second `#`.
Callers guarantee the line contains `#` (it starts with `"... #"`); on a
`#`-free line Python would raise IndexError, never reached. -/
def splitHashGet1 (s : String) : String :=
  match s.data.dropWhile (fun c => !(c == '#')) with
  | [] => ""
  | _ :: t => String.mk (t.takeWhile (fun c => !(c == '#')))

instance {ε α : Type} [DecidableEq ε] [DecidableEq α] :
    DecidableEq (Except ε α)
  | Except.ok a, Except.ok b =>
    if h : a = b then isTrue (congrArg Except.ok h)
    else isFalse (fun hh => h (Except.ok.inj hh))
  | Except.ok _, Except.error _ => isFalse (fun hh => Except.noConfusion hh)
  | Except.error _, Except.ok _ => isFalse (fun hh => Except.noConfusion hh)
  | Except.error e, Except.error f =>
    if h : e = f then isTrue (congrArg Except.error h)
    else isFalse (fun hh => h (Except.error.inj hh))

/-- Python truthiness of an optional string: `None` and `""` are falsy. -/
def otruthy (o : Option String) : Bool :=
  match o with
  | none => false
  | some s => !(s == "")

/-- Models `stream.get(key, '').lower()`. -/
def lstr (o : Option String) : String :=
  pyLower (o.getD "")

/-- One side effect issued by the program. -/
inductive Act where
  | focusReq (target : String)
  | fetchPlayback
  | fetchCapture
  | setVol (id : String) (vol : Nat)
  | setMute (id : String) (m : Bool)
deriving DecidableEq, Repr

/-- A parsed audio stream record (playback or capture): the Python dict built
by `list_audio_streams` / `list_microphone_streams`, with every key
optional. -/
structure AStream where
  id : Option String := none
  app_name : Option String := none
  binary : Option String := none
  media_name : Option String := none
  pid : Option String := none
deriving DecidableEq, Repr

/-- The global `browser_windows = [None, None, None]` registry. -/
structure Reg where
  w1 : Option String := none
  w2 : Option String := none
  w3 : Option String := none
deriving DecidableEq, Repr

/-- `browser_windows[i-1]` for a 1-based browser number. Python's index `-1`
(from `i = 0`) reads the last slot. (Callers only use `i` in 1..3, guarded by
`active_idx <= len(browser_windows)` or by `activate`'s validation.) -/
def Reg.get (r : Reg) (i : Nat) : Option String :=
  match i with
  | 0 => r.w3
  | 1 => r.w1
  | 2 => r.w2
  | 3 => r.w3
  | _ => none

/-- `browser_windows[i-1] = v` for a 1-based browser number; index `-1`
(from `i = 0`) writes the last slot. Out-of-range indices (≥ 4) are never
used by the program (browsers are created with idx 1..3); they are modelled
as a no-op. -/
def Reg.set (r : Reg) (i : Nat) (v : Option String) : Reg :=
  match i with
  | 0 => { r with w3 := v }
  | 1 => { r with w1 := v }
  | 2 => { r with w2 := v }
  | 3 => { r with w3 := v }
  | _ => r

/-- The `browser_names` map of `adjust_stream_volumes` (line 234). -/
def browser_names (i : Nat) : List String :=
  match i with
  | 1 => ["vivaldi", "vivaldimail"]
  | 2 => ["chrome", "google chrome", "chromium"]
  | 3 => ["brave", "brave-browser"]
  | _ => []

/-- `any(name in app_name or name in binary for name in names)`. -/
def nameMatch (names : List String) (app bin : String) : Bool :=
  names.any (fun n => pyIn n app || pyIn n bin)

/-- Python `s == o` where `s` is a `str` and `o` is `None` or a `str`
(`"x" == None` is `False`). -/
def pyEqSO (s : String) (o : Option String) : Bool :=
  match o with
  | none => false
  | some a => s == a

example : pyIn "chrome" "chromium" = false := by decide
example : pyIn "chromium" "chromium-browser" = true := by decide
example : pyIn "vivaldi" "mpv" = false := by decide
example : otruthy (some "") = false := by decide
example : (Reg.get { w3 := some "x" } 0) = some "x" := by rfl

/-! ## The stream-dump patterns (`PAT_*` regexes, lines 163-166)

Each is modelled with Python `re.search` semantics: leftmost matching
position, `\s+` / `[^"]+` / `\d+` / `[^/]+` greedy with backtracking and
`.*?` lazy.  (`\s` and `\d` are modelled by `Char.isWhitespace` /
`Char.isDigit`; the real dumps are ASCII.) -/

/-- Consume a literal from the front of `cs`. -/
def stripLit : List Char → List Char → Option (List Char)
  | [], cs => some cs
  | _ :: _, [] => none
  | a :: lit, c :: cs => if a == c then stripLit lit cs else none

/-- Consume `\s+` (one or more whitespace characters, greedily; the next
pattern characters `=` and `"` are never whitespace, so maximal munch is
exact). -/
def stripWS1 : List Char → Option (List Char)
  | [] => none
  | c :: cs =>
    if c.isWhitespace then some (cs.dropWhile Char.isWhitespace) else none

/-- Match `key\s+=\s+"([^"]+)"` at the start of `cs`; returns the capture. -/
def matchKeyQuotedAt (key : List Char) (cs : List Char) : Option String := do
  let cs ← stripLit key cs
  let cs ← stripWS1 cs
  let cs ← stripLit ['='] cs
  let cs ← stripWS1 cs
  let cs ← stripLit ['"'] cs
  let v := cs.takeWhile (fun c => !(c == '"'))
  if v.isEmpty then none
  else
    match cs.drop v.length with
    | '"' :: _ => some (String.mk v)
    | _ => none

/-- Match `key\s+=\s+"(\d+)"` at the start of `cs`; returns the capture. -/
def matchKeyDigitsAt (key : List Char) (cs : List Char) : Option String := do
  let cs ← stripLit key cs
  let cs ← stripWS1 cs
  let cs ← stripLit ['='] cs
  let cs ← stripWS1 cs
  let cs ← stripLit ['"'] cs
  let v := cs.takeWhile Char.isDigit
  if v.isEmpty then none
  else
    match cs.drop v.length with
    | '"' :: _ => some (String.mk v)
    | _ => none

/-- Index of the last `'"'` in the list (accumulator-style scan). -/
def lastQuoteAux : List Char → Nat → Option Nat → Option Nat
  | [], _, acc => acc
  | c :: rest, i, acc =>
    lastQuoteAux rest (i + 1) (if c == '"' then some i else acc)

/-- `([^/]+)"` after a slash, with greedy backtracking: the capture runs to
the last `'"'` inside the maximal slash-free run, and must be non-empty. -/
def matchAfterSlash (rest : List Char) : Option String :=
  let run := rest.takeWhile (fun c => !(c == '/'))
  match lastQuoteAux run 0 none with
  | some i => if 1 ≤ i then some (String.mk (run.take i)) else none
  | none => none

/-- `.*?/([^/]+)"`: lazily scan for the first `'/'` whose suffix completes
the match; on failure the lazy `.*?` swallows it and scanning continues. -/
def scanSlash : List Char → Option String
  | [] => none
  | c :: rest =>
    if c == '/' then
      match matchAfterSlash rest with
      | some v => some v
      | none => scanSlash rest
    else scanSlash rest

/-- Match `application\.process\.binary\s+=\s+".*?/([^/]+)"` at the start. -/
def matchBinaryAt (cs : List Char) : Option String := do
  let cs ← stripLit "application.process.binary".data cs
  let cs ← stripWS1 cs
  let cs ← stripLit ['='] cs
  let cs ← stripWS1 cs
  let cs ← stripLit ['"'] cs
  scanSlash cs

/-- `re.search`: try the anchored matcher at each position, leftmost first. -/
def reSearch (f : List Char → Option String) : List Char → Option String
  | [] => f []
  | c :: rest =>
    match f (c :: rest) with
    | some v => some v
    | none => reSearch f rest

/-- `PAT_APP_NAME.search(line)` returning the capture group. -/
def patAppName (line : String) : Option String :=
  reSearch (matchKeyQuotedAt "application.name".data) line.data

/-- `PAT_MEDIA_NAME.search(line)` returning the capture group. -/
def patMediaName (line : String) : Option String :=
  reSearch (matchKeyQuotedAt "media.name".data) line.data

/-- `PAT_APP_PID.search(line)` returning the capture group. -/
def patAppPid (line : String) : Option String :=
  reSearch (matchKeyDigitsAt "application.process.id".data) line.data

/-- `PAT_APP_PROCESS.search(line)` returning the capture group. -/
def patAppProcess (line : String) : Option String :=
  reSearch matchBinaryAt line.data

example : patAppName "\tapplication.name = \"Google Chrome\"" = some "Google Chrome" := by decide
example : patAppProcess "application.process.binary = \"/usr/bin/vivaldi-bin\"" = some "vivaldi-bin" := by decide
example : patAppPid "application.process.id = \"1234\"" = some "1234" := by decide
example : patAppPid "application.process.id = \"12a4\"" = none := by decide

/-! ## Stream Inventory Adapter (`list_audio_streams`, lines 168-211, and
`list_microphone_streams`, lines 461-510)

The external `pactl` dump is a list of raw text lines; `run` failures and
caught exceptions yield an empty dump and hence an empty result, so the
parsers are modelled on the dump alone. -/

/-- `line.split("#")[1].strip()` for a header line (a header contains `#`). -/
def headerIdOf (line : String) : String :=
  pyStrip (splitHashGet1 line)

/-- The `elif` chain of `list_audio_streams`'s loop for a non-header line
(`line` is already stripped): recognize `application.name` (guarded also by
a literal `=`), `application.process.binary`, `media.name`,
`application.process.id`; a failed pattern or an unrecognized line leaves
the current dict unchanged. -/
def applySinkLine (line : String) (cur : AStream) : AStream :=
  if pyIn "application.name" line && pyIn "=" line then
    match patAppName line with
    | some v => { cur with app_name := some v }
    | none => cur
  else if pyIn "application.process.binary" line then
    match patAppProcess line with
    | some v => { cur with binary := some v }
    | none => cur
  else if pyIn "media.name" line then
    match patMediaName line with
    | some v => { cur with media_name := some v }
    | none => cur
  else if pyIn "application.process.id" line then
    match patAppPid line with
    | some v => { cur with pid := some v }
    | none => cur
  else cur

/-- One iteration of `list_audio_streams`'s `for line in txt.splitlines()`:
state is (streams so far, current dict). -/
def sinkStep (st : List AStream × AStream) (rawLine : String) :
    List AStream × AStream :=
  let line := pyStrip rawLine
  if pyStartsWith "Sink Input #" line then
    ((if st.2.id.isSome then st.1 ++ [st.2] else st.1),
     { id := some (headerIdOf line) })
  else
    (st.1, applySinkLine line st.2)

/-- `list_audio_streams` on an already-split dump: fold the lines, then
append the last dict if it has an id. -/
def list_audio_streams (lines : List String) : List AStream :=
  let st := lines.foldl sinkStep ([], {})
  if st.2.id.isSome then st.1 ++ [st.2] else st.1

/-- The `elif` chain of `list_microphone_streams`'s loop (no `media.name`
branch). -/
def applySourceLine (line : String) (cur : AStream) : AStream :=
  if pyIn "application.name" line && pyIn "=" line then
    match patAppName line with
    | some v => { cur with app_name := some v }
    | none => cur
  else if pyIn "application.process.binary" line then
    match patAppProcess line with
    | some v => { cur with binary := some v }
    | none => cur
  else if pyIn "application.process.id" line then
    match patAppPid line with
    | some v => { cur with pid := some v }
    | none => cur
  else cur

/-- One iteration of `list_microphone_streams`'s loop. -/
def sourceStep (st : List AStream × AStream) (rawLine : String) :
    List AStream × AStream :=
  let line := pyStrip rawLine
  if pyStartsWith "Source Output #" line then
    ((if st.2.id.isSome then st.1 ++ [st.2] else st.1),
     { id := some (headerIdOf line) })
  else
    (st.1, applySourceLine line st.2)

/-- `list_microphone_streams` on an already-split dump. -/
def list_microphone_streams (lines : List String) : List AStream :=
  let st := lines.foldl sourceStep ([], {})
  if st.2.id.isSome then st.1 ++ [st.2] else st.1

/-! Block decomposition of a dump, used to state the parser contract. -/

/-- Is this raw line a playback header (`Sink Input #N`) after stripping? -/
def isSinkHeader (l : String) : Bool :=
  pyStartsWith "Sink Input #" (pyStrip l)

/-- Is this raw line a capture header (`Source Output #N`) after stripping? -/
def isSourceHeader (l : String) : Bool :=
  pyStartsWith "Source Output #" (pyStrip l)

theorem dropWhile_length_le {α : Type} (p : α → Bool) (l : List α) :
    (l.dropWhile p).length ≤ l.length := by
  induction l with
  | nil => simp [List.dropWhile]
  | cons a t ih =>
    rw [List.dropWhile]
    cases p a with
    | true => exact Nat.le_succ_of_le ih
    | false => exact Nat.le_refl _

/-- Split a dump into blocks: each block is a header line together with the
raw lines up to the next header; lines before the first header belong to no
block. -/
def blocksBy (isH : String → Bool) : List String → List (String × List String)
  | [] => []
  | l :: rest =>
    if isH l then
      (l, rest.takeWhile (fun x => !isH x))
        :: blocksBy isH (rest.dropWhile (fun x => !isH x))
    else
      blocksBy isH rest
termination_by lines => lines.length
decreasing_by
  · exact Nat.lt_succ_of_le (dropWhile_length_le _ _)
  · exact Nat.lt_succ_self _

/-- The record a playback block parses to. -/
def sinkRecord (hb : String × List String) : AStream :=
  hb.2.foldl (fun cur l => applySinkLine (pyStrip l) cur)
    { id := some (headerIdOf (pyStrip hb.1)) }

/-- The record a capture block parses to. -/
def sourceRecord (hb : String × List String) : AStream :=
  hb.2.foldl (fun cur l => applySourceLine (pyStrip l) cur)
    { id := some (headerIdOf (pyStrip hb.1)) }

/-! ## Attribution Engine, playback (`adjust_stream_volumes`, lines 225-455)

`ACTIVE_VOL, INACTIVE_VOL = 100, 30`.  The function reads the global
`browser_windows` (`Reg`) and `get_window_pid` (modelled as
`winPid : String → Option String`, window id to `_NET_WM_PID`).
`active_pid` is a Python local assigned only inside the `if` at line 253;
reading it when that branch did not run (lines 408 and 443) raises
`UnboundLocalError`, modelled as `Except.error`. -/

/-- State of the first-attempt loop: the per-browser stream-id lists, the
`browser_stream_ids` list, the `success` flag and the `set_vol` calls so
far. -/
structure VState where
  viv : List String := []
  chr : List String := []
  brv : List String := []
  ids : List String := []
  success : Bool := false
  acts : List Act := []
deriving DecidableEq, Repr

/-- Book-keeping for a stream that got `stream_browser_idx = b` in the first
pass: append to that browser's list, set the volume (100 if `b` is active,
else 30), record the id, set `success`. -/
def vAssign (active : Nat) (st : VState) (sid : String) (b : Nat) : VState :=
  let st :=
    match b with
    | 1 => { st with viv := st.viv ++ [sid] }
    | 2 => { st with chr := st.chr ++ [sid] }
    | 3 => { st with brv := st.brv ++ [sid] }
    | _ => st
  { st with
    acts := st.acts ++ [Act.setVol sid (if b == active then 100 else 30)],
    ids := st.ids ++ [sid],
    success := true }

/-- The first-pass `elif` chain (lines 263-328) for one stream. -/
def classify1 (active : Nat) (apid : Option String) (st : VState)
    (s : AStream) : VState :=
  match s.id with
  | none => st
  | some sid =>
    let bin := lstr s.binary
    let app := lstr s.app_name
    let spid := s.pid.getD ""
    if nameMatch (browser_names 1) app bin then
      vAssign active st sid 1
    else if nameMatch (browser_names 2) app bin then
      vAssign active st sid 2
    else if nameMatch (browser_names 3) app bin then
      vAssign active st sid 3
    else if active == 2 && (pyIn "chromium" app || pyIn "chromium" bin) then
      vAssign active st sid 2
    else if pyIn "chromium" app || pyIn "chromium" bin then
      if pyEqSO spid apid then
        vAssign active st sid active
      else if active == 1 && st.viv.isEmpty then
        vAssign active st sid 1
      else st
    else st

/-- The first-pass loop over all streams. -/
def pass1 (active : Nat) (apid : Option String) :
    List AStream → VState → VState
  | [], st => st
  | s :: rest, st => pass1 active apid rest (classify1 active apid st s)

/-- Lines 336-344: if Vivaldi is active and no Vivaldi stream was found, set
every stream whose id was not yet assigned to the active volume. -/
def rescue1 (active : Nat) (streams : List AStream) (st : VState) : VState :=
  if active == 1 && st.viv.isEmpty && !streams.isEmpty then
    streams.foldl
      (fun acc s =>
        match s.id with
        | some sid =>
          if acc.ids.contains sid then acc
          else { acc with acts := acc.acts ++ [Act.setVol sid 100],
                          success := true }
        | none => acc)
      st
  else st

/-- Lines 253-344 (`if active_idx <= len(browser_windows) and
browser_windows[active_idx-1]:`): the first attempt.  Returns the loop state
and the binding state of `active_pid` (`none` = never assigned). -/
def firstAttempt (active : Nat) (streams : List AStream) (reg : Reg)
    (winPid : String → Option String) : VState × Option (Option String) :=
  if active ≤ 3 && otruthy (reg.get active) then
    let apid := winPid ((reg.get active).getD "")
    let st := pass1 active apid streams {}
    (rescue1 active streams st, some apid)
  else ({}, none)

/-- Lines 347-389: the "more aggressive" pass, run only when nothing
succeeded yet; every stream with an id gets a volume set by a single brand
test against the active browser. -/
def aggressivePass (active : Nat) (streams : List AStream)
    (p : Bool × List Act) : Bool × List Act :=
  if !p.1 && !streams.isEmpty then
    streams.foldl
      (fun q s =>
        match s.id with
        | none => q
        | some sid =>
          let app := lstr s.app_name
          let bin := lstr s.binary
          if active == 1 then
            (true, q.2 ++ [Act.setVol sid
              (if pyIn "vivaldi" app || pyIn "vivaldi" bin then 100 else 30)])
          else if active == 2 then
            (true, q.2 ++ [Act.setVol sid
              (if pyIn "chrome" app || pyIn "chrome" bin then 100 else 30)])
          else if active == 3 then
            (true, q.2 ++ [Act.setVol sid
              (if pyIn "brave" app || pyIn "brave" bin then 100 else 30)])
          else q)
      p
  else p

/-- Lines 397-405: the Vivaldi-by-name loop of the last resort; the flag is
`vivaldi_found`. -/
def lrVivPass (streams : List AStream) (q : Bool × List Act) :
    Bool × List Act :=
  streams.foldl
    (fun q s =>
      match s.id with
      | some sid =>
        if pyIn "vivaldi" (lstr s.app_name) || pyIn "vivaldi" (lstr s.binary)
        then (true, q.2 ++ [Act.setVol sid 100]) else q
      | none => q)
    q

/-- Lines 409-413: the PID-match loop of the last resort (run with a truthy
`active_pid`). -/
def lrPidPass (apid : Option String) (streams : List AStream)
    (q : Bool × List Act) : Bool × List Act :=
  streams.foldl
    (fun q s =>
      match s.id with
      | some sid =>
        if s.pid == apid then (true, q.2 ++ [Act.setVol sid 100])
        else q
      | none => q)
    q

/-- Lines 417-428: the assume-first-Chromium loop of the last resort; the
flag is `chromium_found`. -/
def lrChromPass (streams : List AStream) (q : Bool × List Act) :
    Bool × List Act :=
  streams.foldl
    (fun q s =>
      match s.id with
      | some sid =>
        let app := lstr s.app_name
        if pyIn "chromium" app && !q.1 then
          (true, q.2 ++ [Act.setVol sid 100])
        else if pyIn "chrome" app && !(pyIn "google" app) && !q.1 then
          (true, q.2 ++ [Act.setVol sid 100])
        else q
      | none => q)
    q

/-- Lines 392-428: the Vivaldi last resort.  `apidB = none` means
`active_pid` was never assigned; reading it (line 408) raises.  Returns the
actions and an optional uncaught exception. -/
def lastResort1 (active : Nat) (streams : List AStream)
    (apidB : Option (Option String)) (acts : List Act) :
    List Act × Option String :=
  if active == 1 && !streams.isEmpty then
    let p1 := lrVivPass streams ((false, acts) : Bool × List Act)
    if !p1.1 then
      match apidB with
      | none => (p1.2, some "UnboundLocalError: active_pid")
      | some apid =>
        let p2 :=
          if otruthy apid then
            lrPidPass apid streams ((false, p1.2) : Bool × List Act)
          else (false, p1.2)
        if !p2.1 then
          let p3 := lrChromPass streams ((false, p2.2) : Bool × List Act)
          (p3.2, none)
        else (p2.2, none)
    else (p1.2, none)
  else (acts, none)

/-- Lines 434-445: first loop of the Browser-2 special case; reads
`active_pid` (line 443) for every Chromium-but-not-"google chrome" stream. -/
def special2a (apidB : Option (Option String)) :
    List AStream → List Act → List Act × Option String
  | [], acts => (acts, none)
  | s :: rest, acts =>
    match s.id with
    | none => special2a apidB rest acts
    | some sid =>
      let app := lstr s.app_name
      if pyIn "chromium" app && !(pyIn "google chrome" app) then
        match apidB with
        | none => (acts, some "UnboundLocalError: active_pid")
        | some apid =>
          if !(otruthy apid && s.pid == apid) then
            special2a apidB rest (acts ++ [Act.setVol sid 30])
          else
            special2a apidB rest acts
      else special2a apidB rest acts

/-- Lines 448-453: second loop of the Browser-2 special case. -/
def special2b (streams : List AStream) (acts : List Act) : List Act :=
  streams.foldl
    (fun a s =>
      match s.id with
      | some sid =>
        if pyIn "google chrome" (lstr s.app_name) then
          a ++ [Act.setVol sid 100]
        else a
      | none => a)
    acts

/-- Lines 431-453: the Browser-2 special case. -/
def special2 (active : Nat) (streams : List AStream)
    (apidB : Option (Option String)) (acts : List Act) :
    List Act × Option String :=
  if active == 2 && !streams.isEmpty then
    match special2a apidB streams acts with
    | (acts1, none) => (special2b streams acts1, none)
    | (acts1, some e) => (acts1, some e)
  else (acts, none)

/-- `adjust_stream_volumes(active_idx, streams)`: the `set_vol` calls issued
(in order, including those before an uncaught exception) and either the
returned `success` flag or the uncaught exception. -/
def adjust_stream_volumes (active : Nat) (streams : List AStream) (reg : Reg)
    (winPid : String → Option String) : List Act × Except String Bool :=
  let fa := firstAttempt active streams reg winPid
  let p := aggressivePass active streams (fa.1.success, fa.1.acts)
  match lastResort1 active streams fa.2 p.2 with
  | (acts1, some e) => (acts1, Except.error e)
  | (acts1, none) =>
    match special2 active streams fa.2 acts1 with
    | (acts2, some e) => (acts2, Except.error e)
    | (acts2, none) => (acts2, Except.ok p.1)

/-! ## Attribution Engine, capture (`adjust_microphone_streams`,
lines 513-636)

Here `active_pid` is initialised to `None` before the conditional (line
539), so it is always bound.  When Browser 2 is active, the Chromium-PID
proximity check calls `int()` on pid strings (line 580), which raises
`ValueError` on a non-numeric string — modelled via `String.toInt?`
(Python's `int` is slightly laxer about whitespace and `+`; the real pid
strings are pure digits). -/

/-- The (possibly modified) `browser_names` of the capture engine: when
Vivaldi is active, `"chromium"` moves from Browser 2's list to Browser 1's
(lines 529-536). -/
def mic_names (active : Nat) (i : Nat) : List String :=
  if active == 1 then
    match i with
    | 1 => ["vivaldi", "vivaldimail", "chromium"]
    | 2 => ["chrome", "google chrome"]
    | 3 => ["brave", "brave-browser"]
    | _ => []
  else browser_names i

/-- State of the capture loop: `browser_mic_streams` (3 lists),
`chromium_streams`, `vivaldi_chromium_streams`, `success`, and the
`set_mute` calls so far. -/
structure MicSt where
  mic1 : List String := []
  mic2 : List String := []
  mic3 : List String := []
  chromium : List String := []
  vivChromium : List String := []
  success : Bool := false
  acts : List Act := []
deriving DecidableEq, Repr

/-- `browser_mic_streams[idx].append(sid)`. -/
def micAppend (st : MicSt) (i : Nat) (sid : String) : MicSt :=
  match i with
  | 1 => { st with mic1 := st.mic1 ++ [sid] }
  | 2 => { st with mic2 := st.mic2 ++ [sid] }
  | 3 => { st with mic3 := st.mic3 ++ [sid] }
  | _ => st

/-- One iteration of the capture loop (lines 567-623) for one stream;
`some e` in the second component is an uncaught `ValueError`. -/
def micStep (active : Nat) (apid vpid cpid : Option String) (st : MicSt)
    (s : AStream) : MicSt × Option String :=
  if !otruthy s.id then (st, none)
  else
    let sid := s.id.getD ""
    let app := lstr s.app_name
    let bin := lstr s.binary
    let pid := s.pid.getD ""
    -- lines 577-582: Chromium-PID proximity bookkeeping (Browser 2 active)
    let res1 : MicSt × Option String :=
      if active == 2 && pyIn "chromium" app && otruthy vpid && !(pid == "")
      then
        if !otruthy cpid then
          ({ st with vivChromium := st.vivChromium ++ [sid] }, none)
        else
          match pid.toInt?, (vpid.getD "").toInt?, (cpid.getD "").toInt? with
          | some np, some nv, some nc =>
            if (np - nv).natAbs < (np - nc).natAbs then
              ({ st with vivChromium := st.vivChromium ++ [sid] }, none)
            else (st, none)
          | _, _, _ => (st, some "ValueError: int()")
      else (st, none)
    match res1 with
    | (_, some e) => (res1.1, some e)
    | (st, none) =>
      -- lines 587-592: first name match over browsers 1, 2, 3 (break)
      let m0 : Option Nat :=
        if nameMatch (mic_names active 1) app bin then some 1
        else if nameMatch (mic_names active 2) app bin then some 2
        else if nameMatch (mic_names active 3) app bin then some 3
        else none
      let st := match m0 with
        | some i => micAppend st i sid
        | none => st
      -- lines 594-596: track unmatched chromium streams
      let st :=
        if pyIn "chromium" app && m0 == none then
          { st with chromium := st.chromium ++ [sid] }
        else st
      -- lines 599-604: Browser 2 active forces "chromium input" to Browser 1
      let m1 : Option Nat :=
        if active == 2 && pyIn "chromium input" app then some 1 else m0
      let st :=
        if active == 2 && pyIn "chromium input" app then micAppend st 1 sid
        else st
      -- lines 607-610: PID fallback against the active window
      let m2 : Option Nat :=
        if m1 == none && otruthy apid && pid == apid.getD "" then some active
        else m1
      let st :=
        if m1 == none && otruthy apid && pid == apid.getD "" then
          micAppend st active sid
        else st
      -- lines 613-623: decide the mute state
      if m2 == some active then
        ({ st with acts := st.acts ++ [Act.setMute sid false],
                   success := true }, none)
      else if m2 == some 1 || m2 == some 2 || m2 == some 3 then
        ({ st with acts := st.acts ++ [Act.setMute sid true],
                   success := true }, none)
      else (st, none)

/-- The capture loop over all streams, stopping at an uncaught exception. -/
def micLoop (active : Nat) (apid vpid cpid : Option String) :
    List AStream → MicSt → MicSt × Option String
  | [], st => (st, none)
  | s :: rest, st =>
    match micStep active apid vpid cpid st s with
    | (st', none) => micLoop active apid vpid cpid rest st'
    | (st', some e) => (st', some e)

/-- Lines 627-634: the Vivaldi capture fallback — un-mute the first
unassigned Chromium stream (the loop `break`s after one). -/
def micFallback (active : Nat) (st : MicSt) : MicSt :=
  if active == 1 && st.mic1.isEmpty && !st.chromium.isEmpty then
    match st.chromium with
    | sid :: _ =>
      { st with acts := st.acts ++ [Act.setMute sid false], success := true }
    | [] => st
  else st

/-- `adjust_microphone_streams(active_idx, streams)`: the `set_mute` calls
issued and either the returned flag or an uncaught exception. -/
def adjust_microphone_streams (active : Nat) (streams : List AStream)
    (reg : Reg) (winPid : String → Option String) :
    List Act × Except String Bool :=
  if streams.isEmpty then ([], Except.ok false)
  else
    let apid : Option String :=
      if active ≤ 3 && otruthy (reg.get active) then
        winPid ((reg.get active).getD "")
      else none
    let vpid : Option String :=
      if active == 2 && otruthy reg.w1 then winPid (reg.w1.getD "") else none
    let cpid : Option String :=
      if active == 2 && otruthy reg.w2 then winPid (reg.w2.getD "") else none
    match micLoop active apid vpid cpid streams {} with
    | (st, some e) => (st.acts, Except.error e)
    | (st, none) =>
      let st2 := micFallback active st
      (st2.acts, Except.ok st2.success)

/-! ## Browser focus and the Switch Orchestrator (`Browser.focus`,
lines 743-793, and `Switcher.activate`, lines 819-845)

The external window tools are modelled as pure functions in `Env`:
`focusById` is `wmctrl -i -a` succeeding, `focusByTitle` is `wmctrl -a
<title>` succeeding, `findByPid` is `find_window_by_pid`, `findByClass` is
`find_window_by_class`, `xdotoolPresent` is whether the strategy-5
`xdotool` invocation does not raise, and `winPid` is `get_window_pid`.
The pactl dumps are the raw line lists consumed by the parsers. -/

/-- The external world, fixed during (and between) activations. -/
structure Env where
  focusById : String → Bool
  focusByTitle : String → Bool
  findByPid : String → Option String
  findByClass : String → Option String
  xdotoolPresent : Bool
  winPid : String → Option String
  playbackDump : List String
  captureDump : List String

/-- A `Browser` instance (the fields `Browser.focus` uses; the launch-only
fields `exe`, `url`, `profile`, `proc` are omitted). -/
structure Browser where
  idx : Nat
  exe_name : String
  title : String
  pid : Option String := none
  window_id : Option String := none
deriving DecidableEq, Repr

/-- Result of `Browser.focus`: return value, updated instance, updated
registry, and the window-focus requests issued (wmctrl/xdotool targets). -/
structure FocusRes where
  ok : Bool
  browser : Browser
  reg : Reg
  reqs : List String
deriving DecidableEq, Repr

/-- `Browser.focus` (lines 743-793): five strategies; strategies 3 and 4
overwrite `self.window_id` and `browser_windows[self.idx-1]` with a freshly
discovered window id. -/
def Browser.focus (env : Env) (b : Browser) (reg : Reg) : FocusRes :=
  let q1 : List String :=
    if otruthy b.window_id then [b.window_id.getD ""] else []
  if otruthy b.window_id && env.focusById (b.window_id.getD "") then
    ⟨true, b, reg, q1⟩
  else
    let q2 := q1 ++ [b.title]
    if env.focusByTitle b.title then ⟨true, b, reg, q2⟩
    else
      let f3 : Option String :=
        if otruthy b.pid then env.findByPid (b.pid.getD "") else none
      let b1 := if otruthy f3 then { b with window_id := f3 } else b
      let reg1 := if otruthy f3 then reg.set b.idx f3 else reg
      let q3 := q2 ++ (if otruthy f3 then [f3.getD ""] else [])
      if otruthy f3 && env.focusById (f3.getD "") then ⟨true, b1, reg1, q3⟩
      else
        let isBrave := pyLower b.exe_name == "brave"
          || pyLower b.exe_name == "brave-browser"
        let f4 : Option String :=
          if isBrave then env.findByClass "Brave" else none
        let b2 := if otruthy f4 then { b1 with window_id := f4 } else b1
        let reg2 := if otruthy f4 then reg1.set b.idx f4 else reg1
        let q4 := q3 ++ (if otruthy f4 then [f4.getD ""] else [])
        if otruthy f4 && env.focusById (f4.getD "") then ⟨true, b2, reg2, q4⟩
        else
          if otruthy b2.window_id && env.xdotoolPresent then
            ⟨true, b2, reg2, q4 ++ [b2.window_id.getD ""]⟩
          else ⟨false, b2, reg2, q4⟩

/-- Global mutable state touched by `activate`: the three `Browser`
instances and the `browser_windows` registry. -/
structure GState where
  b1 : Browser
  b2 : Browser
  b3 : Browser
  reg : Reg
deriving DecidableEq, Repr

/-- `browsers[n-1]` for `n` in 1..3 (callers validate the range first). -/
def GState.getB (st : GState) (n : Nat) : Browser :=
  match n with
  | 1 => st.b1
  | 2 => st.b2
  | _ => st.b3

/-- Store the updated browser instance and registry back. -/
def GState.put (st : GState) (n : Nat) (b : Browser) (r : Reg) : GState :=
  match n with
  | 1 => { st with b1 := b, reg := r }
  | 2 => { st with b2 := b, reg := r }
  | _ => { st with b3 := b, reg := r }

/-- Lines 828-845 of `Switcher.activate`, after the focus step: fetch
playback streams, adjust volumes, then fetch and adjust capture streams;
return True iff playback streams were found.  `st'` is the state after
focus, `reg` the (possibly focus-updated) registry the adjusters read, and
`tr0` the trace so far. -/
def activateBody (env : Env) (n : Nat) (st' : GState) (reg : Reg)
    (tr0 : List Act) : Except String Bool × GState × List Act :=
  let streams := list_audio_streams env.playbackDump
  if streams.isEmpty then (Except.ok false, st', tr0)
  else
    let a1 := adjust_stream_volumes n streams reg env.winPid
    match a1.2 with
    | Except.error e => (Except.error e, st', tr0 ++ a1.1)
    | Except.ok _ =>
      let tr1 := tr0 ++ a1.1 ++ [Act.fetchCapture]
      let mics := list_microphone_streams env.captureDump
      if mics.isEmpty then (Except.ok true, st', tr1)
      else
        let a2 := adjust_microphone_streams n mics reg env.winPid
        match a2.2 with
        | Except.error e => (Except.error e, st', tr1 ++ a2.1)
        | Except.ok _ => (Except.ok true, st', tr1 ++ a2.1)

/-- `Switcher.activate(num)` (lines 819-845): validate, focus (best effort,
result unused), then the audio body.  Returns (outcome, updated state,
side-effect trace). -/
def Switcher.activate (env : Env) (num : Int) (st : GState) :
    Except String Bool × GState × List Act :=
  if num < 1 || 3 < num then (Except.ok false, st, [])
  else
    let n := num.toNat
    let fr := Browser.focus env (st.getB n) st.reg
    activateBody env n (st.put n fr.browser fr.reg) fr.reg
      (fr.reqs.map Act.focusReq ++ [Act.fetchPlayback])

/-! ## Helpers for stating the claims -/

/-- Is this action a volume-set for stream id `i`? -/
def isSetVolFor (i : String) (a : Act) : Bool :=
  match a with
  | Act.setVol j _ => j == i
  | _ => false

/-- Is this action a `pactl` volume or mute operation? -/
def isAudioAct (a : Act) : Bool :=
  match a with
  | Act.setVol _ _ => true
  | Act.setMute _ _ => true
  | _ => false

/-- Is this action a mute-set? -/
def isMuteAct (a : Act) : Bool :=
  match a with
  | Act.setMute _ _ => true
  | _ => false

/-- The union of the three browsers' alias lists of `adjust_stream_volumes`. -/
def allAliases : List String :=
  browser_names 1 ++ browser_names 2 ++ browser_names 3

/-- A stream whose `app_name` and `binary` contain no alias of any managed
browser (decidable form). -/
def noAlias (s : AStream) : Bool :=
  allAliases.all (fun n => !(pyIn n (lstr s.app_name)) && !(pyIn n (lstr s.binary)))

/-- A neutral external world for witnesses. -/
def env0 : Env where
  focusById := fun _ => false
  focusByTitle := fun _ => false
  findByPid := fun _ => none
  findByClass := fun _ => none
  xdotoolPresent := false
  winPid := fun _ => none
  playbackDump := ["Sink Input #5"]
  captureDump := []

/-- The start-up state: three browsers as `Switcher.__init__` creates them
(window ids and pids undiscovered), empty registry. -/
def gs0 : GState where
  b1 := { idx := 1, exe_name := "vivaldi-stable", title := "Browser 1" }
  b2 := { idx := 2, exe_name := "google-chrome", title := "Browser 2" }
  b3 := { idx := 3, exe_name := "brave-browser", title := "Browser 3" }
  reg := {}

/-! ## Shared lemmas -/

theorem otruthy_and_none_beq (o : Option String) :
    (otruthy o && ((none : Option String) == o)) = false := by
  cases o with
  | none => rfl
  | some a => show (!(a == "") && false) = false; simp

theorem Reg.set_set (r : Reg) (i : Nat) (a b : Option String) :
    (r.set i a).set i b = r.set i b := by
  rcases i with _ | _ | _ | _ | i <;> rfl

theorem vAssign_acts (a : Nat) (st : VState) (sid : String) (b : Nat) :
    (vAssign a st sid b).acts
    = st.acts ++ [Act.setVol sid (if b == a then 100 else 30)] := by
  rcases b with _ | _ | _ | _ | b <;> rfl

/-- The first pass emits, per stream, at most one `set_vol`, and it targets
that stream's id. -/
theorem classify1_acts (active : Nat) (apid : Option String) (st : VState)
    (s : AStream) :
    (classify1 active apid st s).acts = st.acts
    ∨ ∃ sid v, s.id = some sid
        ∧ (classify1 active apid st s).acts = st.acts ++ [Act.setVol sid v] := by
  cases hid : s.id with
  | none => exact Or.inl (by simp [classify1, hid])
  | some sid =>
    simp only [classify1, hid]
    repeat' split
    all_goals
      first
        | exact Or.inl rfl
        | exact Or.inr ⟨sid, _, rfl, by rw [vAssign_acts]⟩

/-- Counting bound: the first pass issues at most as many `set_vol`s for a
given id as there are inventory entries carrying that id. -/
theorem pass1_count (active : Nat) (apid : Option String) (i : String) :
    ∀ (streams : List AStream) (st : VState),
    ((pass1 active apid streams st).acts.countP (fun a => isSetVolFor i a))
      ≤ st.acts.countP (fun a => isSetVolFor i a)
        + streams.countP (fun s => s.id == some i) := by
  intro streams
  induction streams with
  | nil => intro st; simp [pass1]
  | cons s rest ih =>
    intro st
    rw [pass1]
    have hcnt : (s :: rest).countP (fun s => s.id == some i)
        = rest.countP (fun s => s.id == some i)
          + (if s.id == some i then 1 else 0) := by
      simp [List.countP_cons]
    rcases classify1_acts active apid st s with hc | ⟨sid, v, hid, hc⟩
    · have := ih (classify1 active apid st s)
      rw [hc] at this
      omega
    · have := ih (classify1 active apid st s)
      rw [hc, List.countP_append] at this
      have hone : ([Act.setVol sid v].countP (fun a => isSetVolFor i a))
          = (if s.id == some i then 1 else 0) := by
        rw [hid]
        have : ((some sid == some i) : Bool) = (sid == i) := rfl
        simp [List.countP_cons, isSetVolFor, this]
      omega

/-! ## Claims -/

/-- C2: the claim says `adjust_stream_volumes` always returns a boolean and
never raises.  It is wrong about the code: with Browser 1 active, its window
never discovered (`browser_windows[0]` is `None`) and a non-Vivaldi stream
present, the first attempt is skipped so `active_pid` is never assigned, and
line 408 (`if not vivaldi_found and active_pid:`) reads it, raising
`UnboundLocalError` after the aggressive pass has already set the stream to
30%.  This contradicts the code's own error-handling style (every other
failure is caught) and the spec's stated intent, so it is a code bug. -/
theorem C2_unbound_active_pid_raises :
    adjust_stream_volumes 1 [{ id := some "5", app_name := some "mpv" }] {}
      (fun _ => none)
    = ([Act.setVol "5" 30], Except.error "UnboundLocalError: active_pid") := by
  decide

/-- C3 counterexample: with two `chromium`-named streams, no pids and
Browser 2 active (window registered, window pid 999), *both* streams are
classified to Browser 2 — each receives the active-volume set — because
`"chromium"` is one of Browser 2's aliases in the exact-name stage.  Neither
is left Unmanaged, contradicting the claim's "at most one ... the other is
Unmanaged". -/
theorem C3_both_generic_streams_classified_cex :
    Act.setVol "5" 100 ∈ (adjust_stream_volumes 2
      [{ id := some "5", app_name := some "chromium" },
       { id := some "6", app_name := some "chromium" }]
      { w2 := some "w" } (fun _ => some "999")).1
    ∧ Act.setVol "6" 100 ∈ (adjust_stream_volumes 2
      [{ id := some "5", app_name := some "chromium" },
       { id := some "6", app_name := some "chromium" }]
      { w2 := some "w" } (fun _ => some "999")).1 := by
  decide

/-- C3 (amended): with Browser 2's window registered, both generic-engine
streams are name-matched to Browser 2 (its alias list contains "chromium")
and set to the active volume, and the Browser-2 Chromium special case then
sets both to the inactive volume (their missing pid never equals the window
pid); the call reports success.  No stream is left Unmanaged, whatever the
window-pid lookup returns. -/
theorem C3_amended (reg : Reg) (winPid : String → Option String)
    (h : otruthy reg.w2 = true) :
    adjust_stream_volumes 2
      [{ id := some "5", app_name := some "chromium" },
       { id := some "6", app_name := some "chromium" }] reg winPid
    = ([Act.setVol "5" 100, Act.setVol "6" 100,
        Act.setVol "5" 30, Act.setVol "6" 30], Except.ok true) := by
  have hg : Reg.get reg 2 = reg.w2 := rfl
  simp [adjust_stream_volumes, firstAttempt, hg, h, pass1, classify1, vAssign,
        rescue1, aggressivePass, lastResort1, lrVivPass, lrPidPass,
        lrChromPass, special2, special2a, special2b,
        otruthy_and_none_beq, nameMatch, browser_names, lstr, pyLower, pyIn,
        listInfixOf, listPrefixOf, pyEqSO]

theorem C3_amended_w :
    adjust_stream_volumes 2
      [{ id := some "5", app_name := some "chromium" },
       { id := some "6", app_name := some "chromium" }]
      { w2 := some "w" } (fun _ => none)
    = ([Act.setVol "5" 100, Act.setVol "6" 100,
        Act.setVol "5" 30, Act.setVol "6" 30], Except.ok true) :=
  C3_amended { w2 := some "w" } (fun _ => none) (by decide)

/-- C4 counterexample: Vivaldi active with its window registered but its pid
unknown, and a single stream named `chrome`.  The first pass classifies the
stream to Browser 2 and sets it to the inactive volume; the Vivaldi last
resort then assumes the same stream is Vivaldi and sets it to the active
volume.  One stream receives an assignment on behalf of Browser 2 *and* the
active-volume assignment on behalf of Browser 1 in the same activation,
contradicting the claim. -/
theorem C4_double_assignment_cex :
    Act.setVol "5" 30 ∈ (adjust_stream_volumes 1
      [{ id := some "5", app_name := some "chrome" }]
      { w1 := some "w" } (fun _ => none)).1
    ∧ Act.setVol "5" 100 ∈ (adjust_stream_volumes 1
      [{ id := some "5", app_name := some "chrome" }]
      { w1 := some "w" } (fun _ => none)).1 := by
  decide

/-- C4 (amended): exclusivity holds for the first-pass classification only:
there each stream is assigned at most one browser index, so when stream ids
are unique (at most one inventory entry per id) a given id receives at most
one volume-set in that pass.  The later fallback passes may issue further
assignments for the same stream on behalf of a different browser (see the
counterexample). -/
theorem C4_amended (active : Nat) (apid : Option String)
    (streams : List AStream) (i : String)
    (h : streams.countP (fun s => s.id == some i) ≤ 1) :
    ((pass1 active apid streams {}).acts.countP (fun a => isSetVolFor i a))
      ≤ 1 := by
  have := pass1_count active apid i streams {}
  have hz : (({} : VState) : VState).acts.countP (fun a => isSetVolFor i a)
      = 0 := rfl
  omega

theorem C4_amended_w :
    ((pass1 2 none [{ id := some "5", app_name := some "google chrome" }]
      {}).acts.countP (fun a => isSetVolFor "5" a)) ≤ 1 :=
  C4_amended 2 none [{ id := some "5", app_name := some "google chrome" }] "5"
    (by decide)

/-- C9: `Switcher.activate` on an invalid browser number returns failure
immediately with no state change and no side effect at all (no focus
request, no inventory fetch, no volume or mute operation). -/
theorem C9_invalid_input_no_effects (env : Env) (st : GState) (num : Int)
    (h : num < 1 ∨ 3 < num) :
    Switcher.activate env num st = (Except.ok false, st, []) := by
  rcases h with h | h <;> simp [Switcher.activate, h]

theorem C9_invalid_input_no_effects_w :
    Switcher.activate env0 0 gs0 = (Except.ok false, gs0, []) :=
  C9_invalid_input_no_effects env0 gs0 0 (Or.inl (by decide))

/-- The external world of the C7 counterexample: the window manager knows a
window `0xabc` owned by pid 42. -/
def envC7 : Env where
  focusById := fun w => w == "0xabc"
  focusByTitle := fun _ => false
  findByPid := fun p => if p == "42" then some "0xabc" else none
  findByClass := fun _ => none
  xdotoolPresent := false
  winPid := fun _ => none
  playbackDump := []
  captureDump := []

/-- C7 counterexample: `Browser.focus` — run during every `activate`, after
launch — rewrites the browser's window id and its `browser_windows` entry
(strategy 3 re-finds the window by pid and stores it, the code comment says
"Update global record").  Here the registry slot for Browser 1 changes from
`None` to `0xabc` during a focus, contradicting "written at most once
(during launch detection) and never modified by any later operation". -/
theorem C7_focus_rewrites_registry_cex :
    (Browser.focus envC7
      { idx := 1, exe_name := "vivaldi-stable", title := "Browser 1",
        pid := some "42" } {}).reg.w1 = some "0xabc"
    ∧ ({} : Reg).w1 = none := by
  decide

/-- C7 (amended): `Browser.focus` never modifies the process id (nor the
index, executable name or title); only the window id and the browser's own
registry entry may be rewritten, and any rewritten registry value is a
window id freshly discovered by the pid search (strategy 3) or the Brave
class search (strategy 4). -/
theorem C7_amended (env : Env) (b : Browser) (reg : Reg) :
    ((Browser.focus env b reg).browser.pid = b.pid
      ∧ (Browser.focus env b reg).browser.idx = b.idx
      ∧ (Browser.focus env b reg).browser.exe_name = b.exe_name
      ∧ (Browser.focus env b reg).browser.title = b.title)
    ∧ ((Browser.focus env b reg).reg = reg
        ∨ ∃ v, (Browser.focus env b reg).reg = reg.set b.idx v
            ∧ (v = env.findByPid (b.pid.getD "")
               ∨ v = env.findByClass "Brave")) := by
  unfold Browser.focus
  by_cases h1 : (otruthy b.window_id && env.focusById (b.window_id.getD "")) = true
  · simp [h1]
  · by_cases h2 : env.focusByTitle b.title = true
    · simp [h1, h2]
    · simp only [h1, h2, if_false, Bool.false_eq_true, ite_false]
      set f3 : Option String :=
        (if otruthy b.pid = true then env.findByPid (b.pid.getD "") else none)
        with hf3
      set f4 : Option String :=
        (if (pyLower b.exe_name == "brave"
              || pyLower b.exe_name == "brave-browser") = true then
          env.findByClass "Brave" else none) with hf4
      have hv3 : otruthy f3 = true → f3 = env.findByPid (b.pid.getD "") := by
        intro h
        by_cases hp : otruthy b.pid = true
        · rw [hf3, if_pos hp]
        · rw [hf3, if_neg hp] at h; exact absurd h (by decide)
      have hv4 : otruthy f4 = true → f4 = env.findByClass "Brave" := by
        intro h
        by_cases hp : (pyLower b.exe_name == "brave"
            || pyLower b.exe_name == "brave-browser") = true
        · rw [hf4, if_pos hp]
        · rw [hf4, if_neg hp] at h; exact absurd h (by decide)
      by_cases h3 : otruthy f3 = true
      · by_cases h3f : env.focusById (f3.getD "") = true
        · refine ⟨?_, ?_⟩
          · simp [h3, h3f]
          · simp only [h3, h3f, Bool.and_self, if_true, if_pos]
            exact Or.inr ⟨f3, by simp, Or.inl (hv3 h3)⟩
        · by_cases h4 : otruthy f4 = true
          · refine ⟨?_, ?_⟩
            · simp [h3, h3f, h4, apply_ite FocusRes.browser, ite_self]
            · simp only [h3, h3f, h4, Bool.and_true, Bool.and_false,
                Bool.false_eq_true, if_false, if_true,
                apply_ite FocusRes.reg, ite_self]
              exact Or.inr ⟨f4, by simp [Reg.set_set], Or.inr (hv4 h4)⟩
          · refine ⟨?_, ?_⟩
            · simp [h3, h3f, h4, apply_ite FocusRes.browser, ite_self]
            · simp only [h3, h3f, h4, Bool.and_true, Bool.and_false,
                Bool.false_eq_true, if_false, if_true,
                apply_ite FocusRes.reg, ite_self]
              exact Or.inr ⟨f3, by simp, Or.inl (hv3 h3)⟩
      · by_cases h4 : otruthy f4 = true
        · refine ⟨?_, ?_⟩
          · simp [h3, h4, apply_ite FocusRes.browser, ite_self]
          · simp only [h3, h4, Bool.and_true, Bool.and_false,
              Bool.false_eq_true, if_false, if_true,
              apply_ite FocusRes.reg, ite_self]
            exact Or.inr ⟨f4, by simp, Or.inr (hv4 h4)⟩
        · refine ⟨?_, ?_⟩
          · simp [h3, h4, apply_ite FocusRes.browser, ite_self]
          · simp [h3, h4, apply_ite FocusRes.reg, ite_self]

/-! ## C10: the capture-pass Vivaldi fallback -/

theorem micAppend_chromium (st : MicSt) (i : Nat) (sid : String) :
    (micAppend st i sid).chromium = st.chromium := by
  rcases i with _ | _ | _ | _ | i <;> rfl

theorem chromium_matches_mic1 (app bin : String)
    (h : pyIn "chromium" app = true) :
    nameMatch (mic_names 1 1) app bin = true := by
  simp [nameMatch, mic_names, h]

theorem micStep_chromium_1 (apid vpid cpid : Option String) (st : MicSt)
    (s : AStream) :
    (micStep 1 apid vpid cpid st s).1.chromium = st.chromium := by
  by_cases hid : otruthy s.id = true
  · by_cases h1 : nameMatch (mic_names 1 1) (lstr s.app_name) (lstr s.binary) = true
    · simp [micStep, hid, h1, micAppend_chromium,
        apply_ite MicSt.chromium, ite_self]
    · have hch : pyIn "chromium" (lstr s.app_name) = false := by
        cases hc : pyIn "chromium" (lstr s.app_name) with
        | false => rfl
        | true => exact absurd (chromium_matches_mic1 _ _ hc) h1
      by_cases h2 : nameMatch (mic_names 1 2) (lstr s.app_name) (lstr s.binary) = true
      · simp [micStep, hid, h1, h2, hch, micAppend_chromium,
          apply_ite MicSt.chromium, ite_self]
      · by_cases h3 : nameMatch (mic_names 1 3) (lstr s.app_name) (lstr s.binary) = true
        · simp [micStep, hid, h1, h2, h3, hch, micAppend_chromium,
            apply_ite MicSt.chromium, ite_self]
        · by_cases hp : (otruthy apid = true ∧ s.pid.getD "" = apid.getD "") <;>
            simp [micStep, hid, h1, h2, h3, hch, hp, micAppend_chromium,
              apply_ite MicSt.chromium, ite_self]
  · simp [micStep, hid]

theorem micLoop_chromium_1 (apid vpid cpid : Option String) :
    ∀ (streams : List AStream) (st : MicSt),
    (micLoop 1 apid vpid cpid streams st).1.chromium = st.chromium := by
  intro streams
  induction streams with
  | nil => intro st; rfl
  | cons s rest ih =>
    intro st
    rw [micLoop]
    rcases hstep : micStep 1 apid vpid cpid st s with ⟨st', err⟩
    have hch : st'.chromium = st.chromium := by
      have := micStep_chromium_1 apid vpid cpid st s
      rw [hstep] at this
      exact this
    cases err with
    | none => rw [ih st']; exact hch
    | some e => exact hch

/-- The concrete capture stream of the C10 witness. -/
def c10Stream : AStream := { id := some "7", app_name := some "Chromium" }

/-- The capture-loop state the C10 witness reaches. -/
def c10St : MicSt :=
  { mic1 := ["7"], success := true, acts := [Act.setMute "7" false] }

example : micLoop 1 none none none [c10Stream] {} = (c10St, none) := by decide

/-- C10: in the capture pass with Browser 1 active, the fallback block
(lines 627-634) performs at most one un-mute, it targets only the first
`chromium_streams` entry (a stream whose app name contains "chromium" and
that matched no managed browser by name), it fires only when no stream was
attributed to Browser 1, and it touches no other stream.  (In fact, when
Browser 1 is active "chromium" is added to Browser 1's alias list, so every
chromium-named stream name-matches Browser 1 and `chromium_streams` is
provably empty — the fallback never fires at all.) -/
theorem C10_capture_fallback (apid vpid cpid : Option String)
    (streams : List AStream) (st : MicSt) (err : Option String)
    (h : micLoop 1 apid vpid cpid streams {} = (st, err)) :
    ((micFallback 1 st).acts.length ≤ st.acts.length + 1)
    ∧ (∀ a ∈ (micFallback 1 st).acts, a ∈ st.acts
        ∨ ∃ sid, a = Act.setMute sid false ∧ st.chromium.head? = some sid
            ∧ st.mic1 = [])
    ∧ (∀ sid ∈ st.chromium, ∃ s ∈ streams, s.id = some sid
        ∧ pyIn "chromium" (lstr s.app_name) = true
        ∧ nameMatch (mic_names 1 1) (lstr s.app_name) (lstr s.binary) = false
        ∧ nameMatch (mic_names 1 2) (lstr s.app_name) (lstr s.binary) = false
        ∧ nameMatch (mic_names 1 3) (lstr s.app_name) (lstr s.binary) = false) := by
  have hchr : st.chromium = [] := by
    have := micLoop_chromium_1 apid vpid cpid streams {}
    rw [h] at this
    exact this
  have hfb : micFallback 1 st = st := by
    simp [micFallback, hchr]
  refine ⟨?_, ?_, ?_⟩
  · rw [hfb]; omega
  · rw [hfb]; exact fun a ha => Or.inl ha
  · rw [hchr]; simp

theorem C10_capture_fallback_w :
    ((micFallback 1 c10St).acts.length ≤ c10St.acts.length + 1)
    ∧ (∀ a ∈ (micFallback 1 c10St).acts, a ∈ c10St.acts
        ∨ ∃ sid, a = Act.setMute sid false ∧ c10St.chromium.head? = some sid
            ∧ c10St.mic1 = [])
    ∧ (∀ sid ∈ c10St.chromium, ∃ s ∈ [c10Stream], s.id = some sid
        ∧ pyIn "chromium" (lstr s.app_name) = true
        ∧ nameMatch (mic_names 1 1) (lstr s.app_name) (lstr s.binary) = false
        ∧ nameMatch (mic_names 1 2) (lstr s.app_name) (lstr s.binary) = false
        ∧ nameMatch (mic_names 1 3) (lstr s.app_name) (lstr s.binary) = false) :=
  C10_capture_fallback none none none [c10Stream] c10St none (by decide)

/-! ## C1: safety of unrecognizable streams -/

/-- Does the stream's app name or binary contain any managed-browser alias? -/
def matchedAny (t : AStream) : Bool :=
  nameMatch allAliases (lstr t.app_name) (lstr t.binary)

theorem noAlias_pyIn {t : AStream} (h : noAlias t = true) :
    ∀ n ∈ allAliases,
      pyIn n (lstr t.app_name) = false ∧ pyIn n (lstr t.binary) = false := by
  intro n hn
  simp only [noAlias, List.all_eq_true] at h
  have := h n hn
  simp only [Bool.and_eq_true, Bool.not_eq_true'] at this
  exact this

theorem noAlias_matchedAny {t : AStream} (h : noAlias t = true) :
    matchedAny t = false := by
  cases hm : matchedAny t with
  | false => rfl
  | true =>
    simp only [matchedAny, nameMatch, List.any_eq_true] at hm
    rcases hm with ⟨n, hn, hor⟩
    rcases noAlias_pyIn h n hn with ⟨h1, h2⟩
    simp [h1, h2] at hor

theorem countP_append_setVol (acc : List Act) (sid : String) (v : Nat)
    (i : String) :
    (acc ++ [Act.setVol sid v]).countP (fun a => isSetVolFor i a)
    = acc.countP (fun a => isSetVolFor i a) + (if sid == i then 1 else 0) := by
  rw [List.countP_append]
  simp [List.countP_cons, isSetVolFor]

/-- Enriched classify1 emission lemma: any emitted action carries the
stream's id and the stream matched some alias (every branch of the chain
requires an alias: the three brand lists, or "chromium", which is browser
2's alias). -/
theorem classify1_acts_alias (active : Nat) (apid : Option String)
    (st : VState) (s : AStream) :
    (classify1 active apid st s).acts = st.acts
    ∨ ∃ sid v, s.id = some sid
        ∧ (classify1 active apid st s).acts = st.acts ++ [Act.setVol sid v]
        ∧ matchedAny s = true := by
  cases hid : s.id with
  | none => exact Or.inl (by simp [classify1, hid])
  | some sid =>
    by_cases c1 : nameMatch (browser_names 1) (lstr s.app_name) (lstr s.binary) = true
    · refine Or.inr ⟨sid, (if ((1 : Nat) == active) = true then 100 else 30),
        rfl, ?_, ?_⟩
      · simp only [classify1, hid, c1, if_true]
        rw [vAssign_acts]
      · simp only [matchedAny, nameMatch, List.any_eq_true] at c1 ⊢
        rcases c1 with ⟨n, hn, h⟩
        exact ⟨n, by simp [allAliases, hn], h⟩
    · by_cases c2 : nameMatch (browser_names 2) (lstr s.app_name) (lstr s.binary) = true
      · refine Or.inr ⟨sid, (if ((2 : Nat) == active) = true then 100 else 30),
          rfl, ?_, ?_⟩
        · simp only [classify1, hid, c1, c2, if_true, if_false,
            Bool.false_eq_true, ite_false]
          rw [vAssign_acts]
        · simp only [matchedAny, nameMatch, List.any_eq_true] at c2 ⊢
          rcases c2 with ⟨n, hn, h⟩
          exact ⟨n, by simp [allAliases, hn], h⟩
      · by_cases c3 : nameMatch (browser_names 3) (lstr s.app_name) (lstr s.binary) = true
        · refine Or.inr ⟨sid, (if ((3 : Nat) == active) = true then 100 else 30),
            rfl, ?_, ?_⟩
          · simp only [classify1, hid, c1, c2, c3, if_true, if_false,
              Bool.false_eq_true, ite_false]
            rw [vAssign_acts]
          · simp only [matchedAny, nameMatch, List.any_eq_true] at c3 ⊢
            rcases c3 with ⟨n, hn, h⟩
            exact ⟨n, by simp [allAliases, hn], h⟩
        · by_cases cc : (pyIn "chromium" (lstr s.app_name)
              || pyIn "chromium" (lstr s.binary)) = true
          · have hmat : matchedAny s = true := by
              simp only [matchedAny, nameMatch, List.any_eq_true]
              exact ⟨"chromium", by simp [allAliases, browser_names], cc⟩
            by_cases c4 : (active == 2) = true
            · refine Or.inr ⟨sid, (if ((2 : Nat) == active) = true then 100 else 30),
                rfl, ?_, hmat⟩
              simp only [classify1, hid, c1, c2, c3, c4, cc, Bool.true_and,
                if_true, if_false, Bool.false_eq_true, ite_false]
              rw [vAssign_acts]
            · by_cases c5 : pyEqSO (s.pid.getD "") apid = true
              · refine Or.inr ⟨sid, (if (active == active) = true then 100 else 30),
                  rfl, ?_, hmat⟩
                simp only [classify1, hid, c1, c2, c3, c4, c5, cc,
                  Bool.false_and, Bool.true_and, if_true, if_false,
                  Bool.false_eq_true, ite_false]
                rw [vAssign_acts]
              · by_cases c6 : ((active == 1) && st.viv.isEmpty) = true
                · refine Or.inr ⟨sid, (if ((1 : Nat) == active) = true then 100 else 30),
                    rfl, ?_, hmat⟩
                  simp only [classify1, hid, c1, c2, c3, c4, c5, c6, cc,
                    Bool.false_and, Bool.true_and, if_true, if_false,
                    Bool.false_eq_true, ite_false]
                  rw [vAssign_acts]
                · refine Or.inl ?_
                  simp only [classify1, hid, c1, c2, c3, c4, c5, c6, cc,
                    Bool.false_and, Bool.true_and, if_true, if_false,
                    Bool.false_eq_true, ite_false]
          · refine Or.inl ?_
            simp [classify1, hid, c1, c2, c3, cc]

/-- The first pass issues no `set_vol` for an id whose streams match no
alias. -/
theorem pass1_countP_noAlias (active : Nat) (apid : Option String)
    (i : String) :
    ∀ (streams : List AStream) (st : VState),
    (∀ t ∈ streams, t.id = some i → matchedAny t = false) →
    (pass1 active apid streams st).acts.countP (fun a => isSetVolFor i a)
      = st.acts.countP (fun a => isSetVolFor i a) := by
  intro streams
  induction streams with
  | nil => intro st _; rfl
  | cons s rest ih =>
    intro st hyp
    rw [pass1]
    rw [ih _ (fun t ht => hyp t (List.mem_cons_of_mem _ ht))]
    rcases classify1_acts_alias active apid st s with hc | ⟨sid, v, hid, hc, hmat⟩
    · rw [hc]
    · rw [hc, countP_append_setVol]
      have hsi : (sid == i) = false := by
        cases hbe : (sid == i) with
        | false => rfl
        | true =>
          have hsidi : sid = i := by simpa using hbe
          subst hsidi
          rw [hyp s (List.mem_cons_self _ _) hid] at hmat
          exact absurd hmat (by simp)
      rw [hsi]
      simp

theorem rescue1_noop (active : Nat) (streams : List AStream) (st : VState)
    (h : (active == 1 && st.viv.isEmpty) = false) :
    rescue1 active streams st = st := by
  unfold rescue1
  simp [h]

theorem aggressive_noop (active : Nat) (streams : List AStream)
    (p : Bool × List Act) (h : p.1 = true) :
    aggressivePass active streams p = p := by
  unfold aggressivePass
  simp [h]

theorem lrVivPass_countP (i : String) :
    ∀ (streams : List AStream) (q : Bool × List Act),
    (∀ t ∈ streams, t.id = some i →
      (pyIn "vivaldi" (lstr t.app_name) || pyIn "vivaldi" (lstr t.binary))
        = false) →
    (lrVivPass streams q).2.countP (fun a => isSetVolFor i a)
      = q.2.countP (fun a => isSetVolFor i a) := by
  intro streams
  induction streams with
  | nil => intro q _; rfl
  | cons s rest ih =>
    intro q hyp
    simp only [lrVivPass, List.foldl_cons] at *
    rw [ih _ (fun t ht => hyp t (List.mem_cons_of_mem _ ht))]
    cases hid : s.id with
    | none => rfl
    | some sid =>
      by_cases hcond : (pyIn "vivaldi" (lstr s.app_name)
          || pyIn "vivaldi" (lstr s.binary)) = true
      · have hsi : (sid == i) = false := by
          cases hbe : (sid == i) with
          | false => rfl
          | true =>
            have hsidi : sid = i := by simpa using hbe
            subst hsidi
            rw [hyp s (List.mem_cons_self _ _) hid] at hcond
            exact absurd hcond (by simp)
        simp only [hid, hcond, if_true]
        rw [countP_append_setVol, hsi]
        simp
      · simp only [hid, hcond, if_false, Bool.false_eq_true, ite_false]

theorem lrPidPass_countP (apid : Option String) (i : String) :
    ∀ (streams : List AStream) (q : Bool × List Act),
    (∀ t ∈ streams, t.id = some i → (t.pid == apid) = false) →
    (lrPidPass apid streams q).2.countP (fun a => isSetVolFor i a)
      = q.2.countP (fun a => isSetVolFor i a) := by
  intro streams
  induction streams with
  | nil => intro q _; rfl
  | cons s rest ih =>
    intro q hyp
    simp only [lrPidPass, List.foldl_cons] at *
    rw [ih _ (fun t ht => hyp t (List.mem_cons_of_mem _ ht))]
    cases hid : s.id with
    | none => rfl
    | some sid =>
      by_cases hcond : (s.pid == apid) = true
      · have hsi : (sid == i) = false := by
          cases hbe : (sid == i) with
          | false => rfl
          | true =>
            have hsidi : sid = i := by simpa using hbe
            subst hsidi
            rw [hyp s (List.mem_cons_self _ _) hid] at hcond
            exact absurd hcond (by simp)
        simp only [hid, hcond, if_true]
        rw [countP_append_setVol, hsi]
        simp
      · simp only [hid, hcond, if_false, Bool.false_eq_true, ite_false]

theorem lrChromPass_countP (i : String) :
    ∀ (streams : List AStream) (q : Bool × List Act),
    (∀ t ∈ streams, t.id = some i →
      pyIn "chromium" (lstr t.app_name) = false
      ∧ pyIn "chrome" (lstr t.app_name) = false) →
    (lrChromPass streams q).2.countP (fun a => isSetVolFor i a)
      = q.2.countP (fun a => isSetVolFor i a) := by
  intro streams
  induction streams with
  | nil => intro q _; rfl
  | cons s rest ih =>
    intro q hyp
    simp only [lrChromPass, List.foldl_cons] at *
    rw [ih _ (fun t ht => hyp t (List.mem_cons_of_mem _ ht))]
    cases hid : s.id with
    | none => rfl
    | some sid =>
      by_cases hc1 : (pyIn "chromium" (lstr s.app_name) && !q.1) = true
      · have hsi : (sid == i) = false := by
          cases hbe : (sid == i) with
          | false => rfl
          | true =>
            have hsidi : sid = i := by simpa using hbe
            subst hsidi
            rw [(hyp s (List.mem_cons_self _ _) hid).1] at hc1
            exact absurd hc1 (by simp)
        simp only [hid, hc1, if_true]
        rw [countP_append_setVol, hsi]
        simp
      · by_cases hc2 : (pyIn "chrome" (lstr s.app_name)
            && !(pyIn "google" (lstr s.app_name)) && !q.1) = true
        · have hsi : (sid == i) = false := by
            cases hbe : (sid == i) with
            | false => rfl
            | true =>
              have hsidi : sid = i := by simpa using hbe
              subst hsidi
              rw [(hyp s (List.mem_cons_self _ _) hid).2] at hc2
              exact absurd hc2 (by simp)
          simp only [hid, hc1, hc2, if_true, if_false, Bool.false_eq_true,
            ite_false]
          rw [countP_append_setVol, hsi]
          simp
        · simp only [hid, hc1, hc2, if_false, Bool.false_eq_true, ite_false]

/-- The Vivaldi last resort with a *bound* `active_pid` raises nothing, and
issues no `set_vol` for an id whose streams neither carry a Vivaldi name,
match the active pid, nor carry a chromium/chrome name. -/
theorem lastResort1_countP (active : Nat) (streams : List AStream)
    (apid : Option String) (acts : List Act) (i : String)
    (hA : ∀ t ∈ streams, t.id = some i →
      (pyIn "vivaldi" (lstr t.app_name) || pyIn "vivaldi" (lstr t.binary))
        = false)
    (hB : otruthy apid = true →
      ∀ t ∈ streams, t.id = some i → (t.pid == apid) = false)
    (hC : ∀ t ∈ streams, t.id = some i →
      pyIn "chromium" (lstr t.app_name) = false
      ∧ pyIn "chrome" (lstr t.app_name) = false) :
    (lastResort1 active streams (some apid) acts).1.countP
        (fun a => isSetVolFor i a)
      = acts.countP (fun a => isSetVolFor i a)
    ∧ (lastResort1 active streams (some apid) acts).2 = none := by
  unfold lastResort1
  by_cases h0 : (active == 1 && !streams.isEmpty) = true
  · simp only [h0, if_true]
    by_cases h1 : (!(lrVivPass streams (false, acts)).1) = true
    · simp only [h1, if_true]
      by_cases h2 : otruthy apid = true
      · simp only [h2, if_true]
        by_cases h3 : (!(lrPidPass apid streams
            (false, (lrVivPass streams (false, acts)).2)).1) = true
        · simp only [h3, if_true]
          constructor
          · rw [lrChromPass_countP i streams _ hC,
              lrPidPass_countP apid i streams _ (hB h2),
              lrVivPass_countP i streams _ hA]
          · trivial
        · simp only [h3, if_false, Bool.false_eq_true, ite_false]
          constructor
          · rw [lrPidPass_countP apid i streams _ (hB h2),
              lrVivPass_countP i streams _ hA]
          · trivial
      · simp only [h2, if_false, Bool.false_eq_true, ite_false, Bool.not_false,
          if_true]
        constructor
        · rw [lrChromPass_countP i streams _ hC,
            lrVivPass_countP i streams _ hA]
        · trivial
    · simp only [h1, if_false, Bool.false_eq_true, ite_false]
      exact ⟨lrVivPass_countP i streams _ hA, trivial⟩
  · simp only [h0, if_false, Bool.false_eq_true, ite_false]
    refine ⟨?_, ?_⟩ <;> trivial

theorem special2a_countP (apid : Option String) (i : String) :
    ∀ (streams : List AStream) (acts : List Act),
    (∀ t ∈ streams, t.id = some i →
      pyIn "chromium" (lstr t.app_name) = false) →
    (special2a (some apid) streams acts).1.countP (fun a => isSetVolFor i a)
      = acts.countP (fun a => isSetVolFor i a)
    ∧ (special2a (some apid) streams acts).2 = none := by
  intro streams
  induction streams with
  | nil => intro acts _; exact ⟨rfl, rfl⟩
  | cons s rest ih =>
    intro acts hyp
    have hyp' := fun t ht => hyp t (List.mem_cons_of_mem _ ht)
    cases hid : s.id with
    | none =>
      simp only [special2a, hid]
      exact ih acts hyp'
    | some sid =>
      by_cases hc : (pyIn "chromium" (lstr s.app_name)
          && !(pyIn "google chrome" (lstr s.app_name))) = true
      · have hsi : (sid == i) = false := by
          cases hbe : (sid == i) with
          | false => rfl
          | true =>
            have hsidi : sid = i := by simpa using hbe
            subst hsidi
            rw [hyp s (List.mem_cons_self _ _) hid] at hc
            exact absurd hc (by simp)
        by_cases hp : (!(otruthy apid && s.pid == apid)) = true
        · simp only [special2a, hid, hc, hp, if_true]
          rcases ih (acts ++ [Act.setVol sid 30]) hyp' with ⟨h1, h2⟩
          refine ⟨?_, h2⟩
          rw [h1, countP_append_setVol, hsi]
          simp
        · simp only [special2a, hid, hc, hp, if_true, if_false,
            Bool.false_eq_true, ite_false]
          exact ih acts hyp'
      · simp only [special2a, hid, hc, if_false, Bool.false_eq_true, ite_false]
        exact ih acts hyp'

theorem special2b_countP (i : String) :
    ∀ (streams : List AStream) (acts : List Act),
    (∀ t ∈ streams, t.id = some i →
      pyIn "google chrome" (lstr t.app_name) = false) →
    (special2b streams acts).countP (fun a => isSetVolFor i a)
      = acts.countP (fun a => isSetVolFor i a) := by
  intro streams
  induction streams with
  | nil => intro acts _; rfl
  | cons s rest ih =>
    intro acts hyp
    simp only [special2b, List.foldl_cons] at *
    rw [ih _ (fun t ht => hyp t (List.mem_cons_of_mem _ ht))]
    cases hid : s.id with
    | none => rfl
    | some sid =>
      by_cases hc : pyIn "google chrome" (lstr s.app_name) = true
      · have hsi : (sid == i) = false := by
          cases hbe : (sid == i) with
          | false => rfl
          | true =>
            have hsidi : sid = i := by simpa using hbe
            subst hsidi
            rw [hyp s (List.mem_cons_self _ _) hid] at hc
            exact absurd hc (by simp)
        simp only [hid, hc, if_true]
        rw [countP_append_setVol, hsi]
        simp
      · simp only [hid, hc, if_false, Bool.false_eq_true, ite_false]

theorem special2_countP (active : Nat) (streams : List AStream)
    (apid : Option String) (acts : List Act) (i : String)
    (hCh : ∀ t ∈ streams, t.id = some i →
      pyIn "chromium" (lstr t.app_name) = false)
    (hGC : ∀ t ∈ streams, t.id = some i →
      pyIn "google chrome" (lstr t.app_name) = false) :
    (special2 active streams (some apid) acts).1.countP
        (fun a => isSetVolFor i a)
      = acts.countP (fun a => isSetVolFor i a)
    ∧ (special2 active streams (some apid) acts).2 = none := by
  unfold special2
  by_cases h0 : (active == 2 && !streams.isEmpty) = true
  · rcases hsa : special2a (some apid) streams acts with ⟨acts1, err1⟩
    rcases special2a_countP apid i streams acts hCh with ⟨hc1, hc2⟩
    rw [hsa] at hc1 hc2
    simp only at hc1 hc2
    subst hc2
    simp only [h0, if_true, hsa]
    exact ⟨by rw [special2b_countP i streams acts1 hGC, hc1], trivial⟩
  · simp only [h0, if_false, Bool.false_eq_true, ite_false]
    refine ⟨?_, ?_⟩ <;> trivial

/-- C1 (amended): a stream with no managed-browser alias in its app name or
binary and whose pid differs from the active window's pid is never assigned
by the name/pid classification; it receives no volume-set in the entire
activation *provided* the active browser's window is registered, the first
pass classified at least one stream, and (when Browser 1 is active) some
stream was attributed to Vivaldi in the first pass.  (Without those provisos
the aggressive / rescue fallbacks set its volume — see the counterexample.)
Stream ids are assumed unique (any inventory entry with this id is the
stream itself). -/
theorem C1_amended (active : Nat) (streams : List AStream) (reg : Reg)
    (winPid : String → Option String) (s : AStream) (i : String)
    (hact : active = 1 ∨ active = 2 ∨ active = 3)
    (hs : s ∈ streams) (hid : s.id = some i)
    (huniq : ∀ t ∈ streams, t.id = some i → t = s)
    (hali : noAlias s = true)
    (hw : otruthy (reg.get active) = true)
    (hpid : winPid ((reg.get active).getD "") ≠ some (s.pid.getD ""))
    (hsucc : (pass1 active (winPid ((reg.get active).getD ""))
      streams {}).success = true)
    (hviv : active = 1 →
      (pass1 active (winPid ((reg.get active).getD "")) streams {}).viv ≠ []) :
    (adjust_stream_volumes active streams reg winPid).1.countP
      (fun a => isSetVolFor i a) = 0 := by
  set apid := winPid ((reg.get active).getD "") with hapid
  have hvivs : ∀ t ∈ streams, t.id = some i →
      (pyIn "vivaldi" (lstr t.app_name) || pyIn "vivaldi" (lstr t.binary))
        = false := by
    intro t ht hti
    rcases huniq t ht hti with rfl
    obtain ⟨h1, h2⟩ := noAlias_pyIn hali "vivaldi" (by decide)
    simp [h1, h2]
  have hmatf : ∀ t ∈ streams, t.id = some i → matchedAny t = false := by
    intro t ht hti
    rcases huniq t ht hti with rfl
    exact noAlias_matchedAny hali
  have hchrf : ∀ t ∈ streams, t.id = some i →
      pyIn "chromium" (lstr t.app_name) = false
      ∧ pyIn "chrome" (lstr t.app_name) = false := by
    intro t ht hti
    rcases huniq t ht hti with rfl
    exact ⟨(noAlias_pyIn hali "chromium" (by decide)).1,
           (noAlias_pyIn hali "chrome" (by decide)).1⟩
  have hgcf : ∀ t ∈ streams, t.id = some i →
      pyIn "google chrome" (lstr t.app_name) = false := by
    intro t ht hti
    rcases huniq t ht hti with rfl
    exact (noAlias_pyIn hali "google chrome" (by decide)).1
  have hpidf : otruthy apid = true →
      ∀ t ∈ streams, t.id = some i → (t.pid == apid) = false := by
    intro hap t ht hti
    rcases huniq t ht hti with rfl
    cases hsp : t.pid with
    | none =>
      cases hap2 : apid with
      | none => rw [hap2] at hap; exact absurd hap (by decide)
      | some a => rfl
    | some p =>
      cases hap2 : apid with
      | none => rfl
      | some a =>
        cases hpa : (p == a) with
        | false => show (some p == some a) = false; simpa using hpa
        | true =>
          have hpaeq : p = a := by simpa using hpa
          subst hpaeq
          rw [hsp] at hpid
          simp only [Option.getD_some] at hpid
          exact absurd hap2 hpid
  have hle : (decide (active ≤ 3)) = true := by
    rcases hact with rfl | rfl | rfl <;> decide
  have hresccond : (active == 1
      && (pass1 active apid streams {}).viv.isEmpty) = false := by
    rcases hact with h1 | h1 | h1
    · subst h1
      have hvne := hviv rfl
      cases hv : (pass1 1 apid streams {}).viv with
      | nil => exact absurd hv hvne
      | cons a l => simp [hv]
    · subst h1; rfl
    · subst h1; rfl
  have hfa : firstAttempt active streams reg winPid
      = (pass1 active apid streams {}, some apid) := by
    unfold firstAttempt
    rw [if_pos (by rw [hle, hw]; rfl)]
    dsimp only
    rw [← hapid, rescue1_noop _ _ _ hresccond]
  have hagg : aggressivePass active streams
      ((pass1 active apid streams {}).success,
        (pass1 active apid streams {}).acts)
      = ((pass1 active apid streams {}).success,
          (pass1 active apid streams {}).acts) :=
    aggressive_noop _ _ _ hsucc
  rcases hlr : lastResort1 active streams (some apid)
      (pass1 active apid streams {}).acts with ⟨actsL, errL⟩
  obtain ⟨hlrc, hlre⟩ :=
    lastResort1_countP active streams apid
      (pass1 active apid streams {}).acts i hvivs hpidf hchrf
  rw [hlr] at hlrc hlre
  simp only at hlrc hlre
  subst hlre
  rcases hsp2 : special2 active streams (some apid) actsL with ⟨actsS, errS⟩
  obtain ⟨hspc, hspe⟩ :=
    special2_countP active streams apid actsL i
      (fun t ht hti => (hchrf t ht hti).1) hgcf
  rw [hsp2] at hspc hspe
  simp only at hspc hspe
  subst hspe
  have hp1 : (pass1 active apid streams {}).acts.countP
      (fun a => isSetVolFor i a) = 0 := by
    rw [pass1_countP_noAlias active apid i streams {} hmatf]
    rfl
  have hadj : adjust_stream_volumes active streams reg winPid
      = (actsS, Except.ok (pass1 active apid streams {}).success) := by
    unfold adjust_stream_volumes
    rw [hfa]
    simp only [hagg, hlr, hsp2]
  rw [hadj]
  simp only
  rw [hspc, hlrc, hp1]

/-- C1 counterexample: an `mpv` stream (no browser alias, no pid, so no pid
match with the active window's pid 999) still receives a volume-set:
with Browser 2 active and no stream classified in the first pass, the
"more aggressive" pass (line 347) sets every stream, including this one, so
it is not left untouched as the claim states. -/
theorem C1_cex :
    noAlias { id := some "5", app_name := some "mpv" } = true
    ∧ ((fun x => if x == "w" then some "999" else none) : String → Option String) "w"
        ≠ some ((({ id := some "5", app_name := some "mpv" } : AStream)).pid.getD "")
    ∧ ((adjust_stream_volumes 2 [{ id := some "5", app_name := some "mpv" }]
        { w2 := some "w" } (fun x => if x == "w" then some "999" else none)).1.countP
        (fun a => isSetVolFor "5" a)) ≠ 0 := by
  decide

def c1s : AStream := { id := some "5", app_name := some "mpv", pid := some "7" }

def c1t : AStream := { id := some "1", app_name := some "google chrome" }

def c1wp : String → Option String :=
  fun x => if x == "w" then some "999" else none

theorem C1_amended_w :
    (adjust_stream_volumes 2 [c1t, c1s] { w2 := some "w" } c1wp).1.countP
      (fun a => isSetVolFor "5" a) = 0 :=
  C1_amended 2 [c1t, c1s] { w2 := some "w" } c1wp c1s "5"
    (Or.inr (Or.inl rfl)) (by decide) (by decide) (by decide) (by decide)
    (by decide) (by decide) (by decide) (by decide)

/-! ## C8: the parser contract -/

/-- Recursive restatement of the playback parser (one step per line). -/
def sinkRun : List String → AStream → List AStream
  | [], cur => if cur.id.isSome then [cur] else []
  | l :: rest, cur =>
    if isSinkHeader l then
      (if cur.id.isSome then [cur] else [])
        ++ sinkRun rest { id := some (headerIdOf (pyStrip l)) }
    else sinkRun rest (applySinkLine (pyStrip l) cur)

/-- Recursive restatement of the capture parser. -/
def sourceRun : List String → AStream → List AStream
  | [], cur => if cur.id.isSome then [cur] else []
  | l :: rest, cur =>
    if isSourceHeader l then
      (if cur.id.isSome then [cur] else [])
        ++ sourceRun rest { id := some (headerIdOf (pyStrip l)) }
    else sourceRun rest (applySourceLine (pyStrip l) cur)

theorem sinkAccum : ∀ (lines : List String) (acc : List AStream)
    (cur : AStream),
    (if (lines.foldl sinkStep (acc, cur)).2.id.isSome
     then (lines.foldl sinkStep (acc, cur)).1
        ++ [(lines.foldl sinkStep (acc, cur)).2]
     else (lines.foldl sinkStep (acc, cur)).1)
    = acc ++ sinkRun lines cur := by
  intro lines
  induction lines with
  | nil =>
    intro acc cur
    unfold sinkRun
    by_cases hc : cur.id.isSome = true <;> simp [hc]
  | cons l rest ih =>
    intro acc cur
    simp only [List.foldl_cons]
    by_cases hh : isSinkHeader l = true
    · have hstep : sinkStep (acc, cur) l
          = ((if cur.id.isSome then acc ++ [cur] else acc),
             { id := some (headerIdOf (pyStrip l)) }) := by
        unfold sinkStep isSinkHeader at *
        simp [hh]
      rw [hstep, ih, sinkRun, if_pos hh]
      by_cases hc : cur.id.isSome = true <;> simp [hc]
    · have hstep : sinkStep (acc, cur) l
          = (acc, applySinkLine (pyStrip l) cur) := by
        unfold sinkStep isSinkHeader at *
        simp [hh]
      rw [hstep, ih, sinkRun, if_neg hh]

theorem sourceAccum : ∀ (lines : List String) (acc : List AStream)
    (cur : AStream),
    (if (lines.foldl sourceStep (acc, cur)).2.id.isSome
     then (lines.foldl sourceStep (acc, cur)).1
        ++ [(lines.foldl sourceStep (acc, cur)).2]
     else (lines.foldl sourceStep (acc, cur)).1)
    = acc ++ sourceRun lines cur := by
  intro lines
  induction lines with
  | nil =>
    intro acc cur
    unfold sourceRun
    by_cases hc : cur.id.isSome = true <;> simp [hc]
  | cons l rest ih =>
    intro acc cur
    simp only [List.foldl_cons]
    by_cases hh : isSourceHeader l = true
    · have hstep : sourceStep (acc, cur) l
          = ((if cur.id.isSome then acc ++ [cur] else acc),
             { id := some (headerIdOf (pyStrip l)) }) := by
        unfold sourceStep isSourceHeader at *
        simp [hh]
      rw [hstep, ih, sourceRun, if_pos hh]
      by_cases hc : cur.id.isSome = true <;> simp [hc]
    · have hstep : sourceStep (acc, cur) l
          = (acc, applySourceLine (pyStrip l) cur) := by
        unfold sourceStep isSourceHeader at *
        simp [hh]
      rw [hstep, ih, sourceRun, if_neg hh]

theorem applySinkLine_id (l : String) (cur : AStream) :
    (applySinkLine l cur).id = cur.id := by
  unfold applySinkLine
  repeat' split
  all_goals rfl

theorem applySourceLine_id (l : String) (cur : AStream) :
    (applySourceLine l cur).id = cur.id := by
  unfold applySourceLine
  repeat' split
  all_goals rfl

theorem sinkRun_after_header :
    ∀ (lines : List String) (cur : AStream), cur.id.isSome = true →
    sinkRun lines cur
    = (lines.takeWhile (fun x => !isSinkHeader x)).foldl
        (fun c l => applySinkLine (pyStrip l) c) cur
      :: (blocksBy isSinkHeader
          (lines.dropWhile (fun x => !isSinkHeader x))).map sinkRecord := by
  intro lines
  induction lines with
  | nil =>
    intro cur h
    simp [sinkRun, h, blocksBy]
  | cons l rest ih =>
    intro cur h
    by_cases hh : isSinkHeader l = true
    · rw [sinkRun, if_pos hh, if_pos h]
      rw [ih _ (by rfl)]
      have ht : (l :: rest).takeWhile (fun x => !isSinkHeader x) = [] := by
        simp [List.takeWhile_cons, hh]
      have hd : (l :: rest).dropWhile (fun x => !isSinkHeader x)
          = l :: rest := by
        simp [List.dropWhile_cons, hh]
      rw [ht, hd, blocksBy, if_pos hh]
      simp [sinkRecord]
    · rw [sinkRun, if_neg hh]
      rw [ih _ (by rw [applySinkLine_id]; exact h)]
      have ht : (l :: rest).takeWhile (fun x => !isSinkHeader x)
          = l :: rest.takeWhile (fun x => !isSinkHeader x) := by
        simp [List.takeWhile_cons, hh]
      have hd : (l :: rest).dropWhile (fun x => !isSinkHeader x)
          = rest.dropWhile (fun x => !isSinkHeader x) := by
        simp [List.dropWhile_cons, hh]
      rw [ht, hd, List.foldl_cons]

theorem sinkRun_blocks :
    ∀ (lines : List String) (cur : AStream), cur.id = none →
    sinkRun lines cur = (blocksBy isSinkHeader lines).map sinkRecord := by
  intro lines
  induction lines with
  | nil => intro cur h; simp [sinkRun, h, blocksBy]
  | cons l rest ih =>
    intro cur h
    by_cases hh : isSinkHeader l = true
    · rw [sinkRun, if_pos hh, if_neg (by simp [h]), blocksBy, if_pos hh]
      rw [sinkRun_after_header _ _ (by rfl)]
      simp [sinkRecord]
    · rw [sinkRun, if_neg hh, blocksBy, if_neg hh]
      exact ih _ (by rw [applySinkLine_id]; exact h)

theorem sourceRun_after_header :
    ∀ (lines : List String) (cur : AStream), cur.id.isSome = true →
    sourceRun lines cur
    = (lines.takeWhile (fun x => !isSourceHeader x)).foldl
        (fun c l => applySourceLine (pyStrip l) c) cur
      :: (blocksBy isSourceHeader
          (lines.dropWhile (fun x => !isSourceHeader x))).map sourceRecord := by
  intro lines
  induction lines with
  | nil =>
    intro cur h
    simp [sourceRun, h, blocksBy]
  | cons l rest ih =>
    intro cur h
    by_cases hh : isSourceHeader l = true
    · rw [sourceRun, if_pos hh, if_pos h]
      rw [ih _ (by rfl)]
      have ht : (l :: rest).takeWhile (fun x => !isSourceHeader x) = [] := by
        simp [List.takeWhile_cons, hh]
      have hd : (l :: rest).dropWhile (fun x => !isSourceHeader x)
          = l :: rest := by
        simp [List.dropWhile_cons, hh]
      rw [ht, hd, blocksBy, if_pos hh]
      simp [sourceRecord]
    · rw [sourceRun, if_neg hh]
      rw [ih _ (by rw [applySourceLine_id]; exact h)]
      have ht : (l :: rest).takeWhile (fun x => !isSourceHeader x)
          = l :: rest.takeWhile (fun x => !isSourceHeader x) := by
        simp [List.takeWhile_cons, hh]
      have hd : (l :: rest).dropWhile (fun x => !isSourceHeader x)
          = rest.dropWhile (fun x => !isSourceHeader x) := by
        simp [List.dropWhile_cons, hh]
      rw [ht, hd, List.foldl_cons]

theorem sourceRun_blocks :
    ∀ (lines : List String) (cur : AStream), cur.id = none →
    sourceRun lines cur = (blocksBy isSourceHeader lines).map sourceRecord := by
  intro lines
  induction lines with
  | nil => intro cur h; simp [sourceRun, h, blocksBy]
  | cons l rest ih =>
    intro cur h
    by_cases hh : isSourceHeader l = true
    · rw [sourceRun, if_pos hh, if_neg (by simp [h]), blocksBy, if_pos hh]
      rw [sourceRun_after_header _ _ (by rfl)]
      simp [sourceRecord]
    · rw [sourceRun, if_neg hh, blocksBy, if_neg hh]
      exact ih _ (by rw [applySourceLine_id]; exact h)

/-- The parser equals the block-wise record builder. -/
theorem list_audio_streams_blocks (lines : List String) :
    list_audio_streams lines = (blocksBy isSinkHeader lines).map sinkRecord := by
  have h := sinkAccum lines [] {}
  simp only [List.nil_append] at h
  unfold list_audio_streams
  rw [h]
  exact sinkRun_blocks lines {} rfl

theorem list_microphone_streams_blocks (lines : List String) :
    list_microphone_streams lines
    = (blocksBy isSourceHeader lines).map sourceRecord := by
  have h := sourceAccum lines [] {}
  simp only [List.nil_append] at h
  unfold list_microphone_streams
  rw [h]
  exact sourceRun_blocks lines {} rfl

theorem blocksBy_fst_aux (isH : String → Bool) :
    ∀ (n : Nat) (lines : List String), lines.length ≤ n →
    (blocksBy isH lines).map Prod.fst = lines.filter isH := by
  intro n
  induction n with
  | zero =>
    intro lines h
    have : lines = [] := List.length_eq_zero.mp (Nat.le_zero.mp h)
    subst this
    simp [blocksBy]
  | succ n ih =>
    intro lines h
    cases lines with
    | nil => simp [blocksBy]
    | cons l rest =>
      by_cases hh : isH l = true
      · rw [blocksBy, if_pos hh]
        simp only [List.map_cons]
        rw [ih (rest.dropWhile (fun x => !isH x))
            (le_trans (dropWhile_length_le _ _) (Nat.le_of_succ_le_succ h))]
        rw [List.filter_cons_of_pos hh]
        congr 1
        conv_rhs =>
          rw [← List.takeWhile_append_dropWhile (p := fun x => !isH x)
              (l := rest)]
        rw [List.filter_append]
        have hnil : (rest.takeWhile (fun x => !isH x)).filter isH = [] := by
          rw [List.filter_eq_nil_iff]
          intro a ha
          have := List.mem_takeWhile_imp ha
          simp only [Bool.not_eq_true'] at this
          simp [this]
        rw [hnil, List.nil_append]
      · rw [blocksBy, if_neg hh]
        rw [ih rest (Nat.le_of_succ_le_succ h)]
        rw [List.filter_cons_of_neg (by simpa using hh)]

/-- The block headers are exactly the dump's header lines. -/
theorem blocksBy_fst (isH : String → Bool) (lines : List String) :
    (blocksBy isH lines).map Prod.fst = lines.filter isH :=
  blocksBy_fst_aux isH lines.length lines (Nat.le_refl _)

/-- A (stripped) line that sets `app_name`: the first branch guard holds and
the pattern matches. -/
def setsAppNameLine (t : String) : Bool :=
  (pyIn "application.name" t && pyIn "=" t) && (patAppName t).isSome

/-- A (stripped) line that sets `binary` (same chain position in both
parsers). -/
def setsBinaryLine (t : String) : Bool :=
  !(pyIn "application.name" t && pyIn "=" t)
  && pyIn "application.process.binary" t && (patAppProcess t).isSome

/-- A (stripped) line that sets `pid` in the playback parser. -/
def setsSinkPidLine (t : String) : Bool :=
  !(pyIn "application.name" t && pyIn "=" t)
  && !(pyIn "application.process.binary" t)
  && !(pyIn "media.name" t)
  && pyIn "application.process.id" t && (patAppPid t).isSome

/-- A (stripped) line that sets `pid` in the capture parser (no `media.name`
branch). -/
def setsSourcePidLine (t : String) : Bool :=
  !(pyIn "application.name" t && pyIn "=" t)
  && !(pyIn "application.process.binary" t)
  && pyIn "application.process.id" t && (patAppPid t).isSome

theorem applySinkLine_app (t : String) (cur : AStream) :
    (applySinkLine t cur).app_name.isSome
    = (cur.app_name.isSome || setsAppNameLine t) := by
  unfold applySinkLine setsAppNameLine
  by_cases g1 : (pyIn "application.name" t && pyIn "=" t) = true
  · simp only [g1, if_true, Bool.true_and]
    cases hp : patAppName t <;> simp [hp]
  · simp only [g1, if_false, Bool.false_eq_true, ite_false,
      Bool.not_eq_true] at *
    simp only [g1, Bool.false_and, Bool.or_false]
    repeat' split
    all_goals rfl

theorem applySinkLine_binary (t : String) (cur : AStream) :
    (applySinkLine t cur).binary.isSome
    = (cur.binary.isSome || setsBinaryLine t) := by
  unfold applySinkLine setsBinaryLine
  by_cases g1 : (pyIn "application.name" t && pyIn "=" t) = true
  · simp only [g1, if_true, Bool.not_true, Bool.false_and, Bool.or_false]
    cases hp : patAppName t <;> simp [hp]
  · simp only [g1, Bool.not_eq_true] at *
    simp only [g1, if_false, Bool.false_eq_true, ite_false, Bool.not_false,
      Bool.true_and]
    by_cases g2 : pyIn "application.process.binary" t = true
    · simp only [g2, if_true, Bool.true_and]
      cases hp : patAppProcess t <;> simp [hp]
    · simp only [g2, Bool.not_eq_true] at *
      simp only [g2, if_false, Bool.false_eq_true, ite_false, Bool.false_and,
        Bool.or_false]
      repeat' split
      all_goals rfl

theorem applySinkLine_pid (t : String) (cur : AStream) :
    (applySinkLine t cur).pid.isSome
    = (cur.pid.isSome || setsSinkPidLine t) := by
  unfold applySinkLine setsSinkPidLine
  by_cases g1 : (pyIn "application.name" t && pyIn "=" t) = true
  · simp only [g1, if_true, Bool.not_true, Bool.false_and, Bool.or_false]
    cases hp : patAppName t <;> simp [hp]
  · simp only [g1, Bool.not_eq_true] at *
    simp only [g1, if_false, Bool.false_eq_true, ite_false, Bool.not_false,
      Bool.true_and]
    by_cases g2 : pyIn "application.process.binary" t = true
    · simp only [g2, if_true, Bool.not_true, Bool.false_and, Bool.or_false]
      cases hp : patAppProcess t <;> simp [hp]
    · simp only [g2, Bool.not_eq_true] at *
      simp only [g2, if_false, Bool.false_eq_true, ite_false, Bool.not_false,
        Bool.true_and]
      by_cases g3 : pyIn "media.name" t = true
      · simp only [g3, if_true, Bool.not_true, Bool.false_and, Bool.or_false]
        cases hp : patMediaName t <;> simp [hp]
      · simp only [g3, Bool.not_eq_true] at *
        simp only [g3, if_false, Bool.false_eq_true, ite_false,
          Bool.not_false, Bool.true_and]
        by_cases g4 : pyIn "application.process.id" t = true
        · simp only [g4, if_true, Bool.true_and]
          cases hp : patAppPid t <;> simp [hp]
        · simp only [g4, Bool.not_eq_true] at *
          simp [g4]

theorem applySourceLine_app (t : String) (cur : AStream) :
    (applySourceLine t cur).app_name.isSome
    = (cur.app_name.isSome || setsAppNameLine t) := by
  unfold applySourceLine setsAppNameLine
  by_cases g1 : (pyIn "application.name" t && pyIn "=" t) = true
  · simp only [g1, if_true, Bool.true_and]
    cases hp : patAppName t <;> simp [hp]
  · simp only [g1, Bool.not_eq_true] at *
    simp only [g1, if_false, Bool.false_eq_true, ite_false, Bool.false_and,
      Bool.or_false]
    repeat' split
    all_goals rfl

theorem applySourceLine_binary (t : String) (cur : AStream) :
    (applySourceLine t cur).binary.isSome
    = (cur.binary.isSome || setsBinaryLine t) := by
  unfold applySourceLine setsBinaryLine
  by_cases g1 : (pyIn "application.name" t && pyIn "=" t) = true
  · simp only [g1, if_true, Bool.not_true, Bool.false_and, Bool.or_false]
    cases hp : patAppName t <;> simp [hp]
  · simp only [g1, Bool.not_eq_true] at *
    simp only [g1, if_false, Bool.false_eq_true, ite_false, Bool.not_false,
      Bool.true_and]
    by_cases g2 : pyIn "application.process.binary" t = true
    · simp only [g2, if_true, Bool.true_and]
      cases hp : patAppProcess t <;> simp [hp]
    · simp only [g2, Bool.not_eq_true] at *
      simp only [g2, if_false, Bool.false_eq_true, ite_false, Bool.false_and,
        Bool.or_false]
      repeat' split
      all_goals rfl

theorem applySourceLine_pid (t : String) (cur : AStream) :
    (applySourceLine t cur).pid.isSome
    = (cur.pid.isSome || setsSourcePidLine t) := by
  unfold applySourceLine setsSourcePidLine
  by_cases g1 : (pyIn "application.name" t && pyIn "=" t) = true
  · simp only [g1, if_true, Bool.not_true, Bool.false_and, Bool.or_false]
    cases hp : patAppName t <;> simp [hp]
  · simp only [g1, Bool.not_eq_true] at *
    simp only [g1, if_false, Bool.false_eq_true, ite_false, Bool.not_false,
      Bool.true_and]
    by_cases g2 : pyIn "application.process.binary" t = true
    · simp only [g2, if_true, Bool.not_true, Bool.false_and, Bool.or_false]
      cases hp : patAppProcess t <;> simp [hp]
    · simp only [g2, Bool.not_eq_true] at *
      simp only [g2, if_false, Bool.false_eq_true, ite_false, Bool.not_false,
        Bool.true_and]
      by_cases g4 : pyIn "application.process.id" t = true
      · simp only [g4, if_true, Bool.true_and]
        cases hp : patAppPid t <;> simp [hp]
      · simp only [g4, Bool.not_eq_true] at *
        simp [g4]

theorem foldSink_id : ∀ (body : List String) (cur : AStream),
    (body.foldl (fun c l => applySinkLine (pyStrip l) c) cur).id = cur.id := by
  intro body
  induction body with
  | nil => intro cur; rfl
  | cons l rest ih =>
    intro cur
    simp only [List.foldl_cons]
    rw [ih, applySinkLine_id]

theorem foldSink_app : ∀ (body : List String) (cur : AStream),
    (body.foldl (fun c l => applySinkLine (pyStrip l) c) cur).app_name.isSome
    = (cur.app_name.isSome
        || body.any (fun l => setsAppNameLine (pyStrip l))) := by
  intro body
  induction body with
  | nil => intro cur; simp
  | cons l rest ih =>
    intro cur
    simp only [List.foldl_cons, List.any_cons]
    rw [ih, applySinkLine_app, Bool.or_assoc]

theorem foldSink_binary : ∀ (body : List String) (cur : AStream),
    (body.foldl (fun c l => applySinkLine (pyStrip l) c) cur).binary.isSome
    = (cur.binary.isSome || body.any (fun l => setsBinaryLine (pyStrip l))) := by
  intro body
  induction body with
  | nil => intro cur; simp
  | cons l rest ih =>
    intro cur
    simp only [List.foldl_cons, List.any_cons]
    rw [ih, applySinkLine_binary, Bool.or_assoc]

theorem foldSink_pid : ∀ (body : List String) (cur : AStream),
    (body.foldl (fun c l => applySinkLine (pyStrip l) c) cur).pid.isSome
    = (cur.pid.isSome || body.any (fun l => setsSinkPidLine (pyStrip l))) := by
  intro body
  induction body with
  | nil => intro cur; simp
  | cons l rest ih =>
    intro cur
    simp only [List.foldl_cons, List.any_cons]
    rw [ih, applySinkLine_pid, Bool.or_assoc]

theorem foldSource_id : ∀ (body : List String) (cur : AStream),
    (body.foldl (fun c l => applySourceLine (pyStrip l) c) cur).id
    = cur.id := by
  intro body
  induction body with
  | nil => intro cur; rfl
  | cons l rest ih =>
    intro cur
    simp only [List.foldl_cons]
    rw [ih, applySourceLine_id]

theorem foldSource_app : ∀ (body : List String) (cur : AStream),
    (body.foldl (fun c l => applySourceLine (pyStrip l) c) cur).app_name.isSome
    = (cur.app_name.isSome
        || body.any (fun l => setsAppNameLine (pyStrip l))) := by
  intro body
  induction body with
  | nil => intro cur; simp
  | cons l rest ih =>
    intro cur
    simp only [List.foldl_cons, List.any_cons]
    rw [ih, applySourceLine_app, Bool.or_assoc]

theorem foldSource_binary : ∀ (body : List String) (cur : AStream),
    (body.foldl (fun c l => applySourceLine (pyStrip l) c) cur).binary.isSome
    = (cur.binary.isSome || body.any (fun l => setsBinaryLine (pyStrip l))) := by
  intro body
  induction body with
  | nil => intro cur; simp
  | cons l rest ih =>
    intro cur
    simp only [List.foldl_cons, List.any_cons]
    rw [ih, applySourceLine_binary, Bool.or_assoc]

theorem foldSource_pid : ∀ (body : List String) (cur : AStream),
    (body.foldl (fun c l => applySourceLine (pyStrip l) c) cur).pid.isSome
    = (cur.pid.isSome || body.any (fun l => setsSourcePidLine (pyStrip l))) := by
  intro body
  induction body with
  | nil => intro cur; simp
  | cons l rest ih =>
    intro cur
    simp only [List.foldl_cons, List.any_cons]
    rw [ih, applySourceLine_pid, Bool.or_assoc]

/-- Is any of the four (three, for capture) property keys on this line? -/
def recognizedSinkLine (t : String) : Bool :=
  (pyIn "application.name" t && pyIn "=" t)
  || pyIn "application.process.binary" t || pyIn "media.name" t
  || pyIn "application.process.id" t

def recognizedSourceLine (t : String) : Bool :=
  (pyIn "application.name" t && pyIn "=" t)
  || pyIn "application.process.binary" t
  || pyIn "application.process.id" t

/-- C8: for every dump, each parser returns exactly one record per header
line (`Sink Input #N` / `Source Output #N`): the parse equals the blockwise
record builder, the blocks' headers are exactly the dump's header lines
(hence one record per header: lengths agree with the header count), each
record's id is the text after `#` on its header, and a field (`app_name`,
`binary`, `pid`) is present in a record exactly when a line of that block
passes its branch guard (which contains the field's key) and matches the
extraction pattern — a property of the block as a set of lines, so presence
is irrespective of the ordering of the property lines.  Lines recognized by
no branch leave the current record unchanged. -/
theorem C8_parsers (pl cl : List String) :
    (list_audio_streams pl = (blocksBy isSinkHeader pl).map sinkRecord
      ∧ (blocksBy isSinkHeader pl).map Prod.fst = pl.filter isSinkHeader
      ∧ (list_audio_streams pl).length = pl.countP isSinkHeader
      ∧ (∀ h body, (sinkRecord (h, body)).id = some (headerIdOf (pyStrip h))
          ∧ (sinkRecord (h, body)).app_name.isSome
              = body.any (fun l => setsAppNameLine (pyStrip l))
          ∧ (sinkRecord (h, body)).binary.isSome
              = body.any (fun l => setsBinaryLine (pyStrip l))
          ∧ (sinkRecord (h, body)).pid.isSome
              = body.any (fun l => setsSinkPidLine (pyStrip l)))
      ∧ (∀ t cur, recognizedSinkLine t = true ∨ applySinkLine t cur = cur))
    ∧ (list_microphone_streams cl
          = (blocksBy isSourceHeader cl).map sourceRecord
      ∧ (blocksBy isSourceHeader cl).map Prod.fst = cl.filter isSourceHeader
      ∧ (list_microphone_streams cl).length = cl.countP isSourceHeader
      ∧ (∀ h body, (sourceRecord (h, body)).id = some (headerIdOf (pyStrip h))
          ∧ (sourceRecord (h, body)).app_name.isSome
              = body.any (fun l => setsAppNameLine (pyStrip l))
          ∧ (sourceRecord (h, body)).binary.isSome
              = body.any (fun l => setsBinaryLine (pyStrip l))
          ∧ (sourceRecord (h, body)).pid.isSome
              = body.any (fun l => setsSourcePidLine (pyStrip l)))
      ∧ (∀ t cur, recognizedSourceLine t = true ∨ applySourceLine t cur = cur)) := by
  refine ⟨⟨list_audio_streams_blocks pl, blocksBy_fst _ pl, ?_, ?_, ?_⟩,
          ⟨list_microphone_streams_blocks cl, blocksBy_fst _ cl, ?_, ?_, ?_⟩⟩
  · rw [list_audio_streams_blocks pl, List.length_map,
      List.countP_eq_length_filter, ← blocksBy_fst isSinkHeader pl,
      List.length_map]
  · intro h body
    refine ⟨?_, ?_, ?_, ?_⟩
    · simp only [sinkRecord]
      rw [foldSink_id]
    · simp only [sinkRecord]
      rw [foldSink_app]
      simp
    · simp only [sinkRecord]
      rw [foldSink_binary]
      simp
    · simp only [sinkRecord]
      rw [foldSink_pid]
      simp
  · intro t cur
    by_cases hr : recognizedSinkLine t = true
    · exact Or.inl hr
    · refine Or.inr ?_
      rw [Bool.not_eq_true] at hr
      simp only [recognizedSinkLine, Bool.or_eq_false_iff] at hr
      obtain ⟨⟨⟨h1, h2⟩, h3⟩, h4⟩ := hr
      simp [applySinkLine, h1, h2, h3, h4]
  · rw [list_microphone_streams_blocks cl, List.length_map,
      List.countP_eq_length_filter, ← blocksBy_fst isSourceHeader cl,
      List.length_map]
  · intro h body
    refine ⟨?_, ?_, ?_, ?_⟩
    · simp only [sourceRecord]
      rw [foldSource_id]
    · simp only [sourceRecord]
      rw [foldSource_app]
      simp
    · simp only [sourceRecord]
      rw [foldSource_binary]
      simp
    · simp only [sourceRecord]
      rw [foldSource_pid]
      simp
  · intro t cur
    by_cases hr : recognizedSourceLine t = true
    · exact Or.inl hr
    · refine Or.inr ?_
      rw [Bool.not_eq_true] at hr
      simp only [recognizedSourceLine, Bool.or_eq_false_iff] at hr
      obtain ⟨⟨h1, h2⟩, h4⟩ := hr
      simp [applySourceLine, h1, h2, h4]

theorem countP_mute_append_setVol (acc : List Act) (sid : String) (v : Nat) :
    (acc ++ [Act.setVol sid v]).countP (fun a => isMuteAct a)
    = acc.countP (fun a => isMuteAct a) := by
  rw [List.countP_append]
  simp [List.countP_cons, isMuteAct]

theorem pass1_mute (active : Nat) (apid : Option String) :
    ∀ (streams : List AStream) (st : VState),
    (pass1 active apid streams st).acts.countP (fun a => isMuteAct a)
    = st.acts.countP (fun a => isMuteAct a) := by
  intro streams
  induction streams with
  | nil => intro st; rfl
  | cons s rest ih =>
    intro st
    rw [pass1, ih]
    rcases classify1_acts active apid st s with hc | ⟨sid, v, _, hc⟩
    · rw [hc]
    · rw [hc, countP_mute_append_setVol]

theorem rescue1_mute (active : Nat) (streams : List AStream) (st : VState) :
    (rescue1 active streams st).acts.countP (fun a => isMuteAct a)
    = st.acts.countP (fun a => isMuteAct a) := by
  unfold rescue1
  by_cases h : (active == 1 && st.viv.isEmpty && !streams.isEmpty) = true
  · rw [if_pos h]
    clear h
    induction streams generalizing st with
    | nil => rfl
    | cons s rest ih =>
      rw [List.foldl_cons]
      rw [ih]
      cases hid : s.id with
      | none => rfl
      | some sid =>
        by_cases hm : st.ids.contains sid = true
        · simp only [hid, hm, if_true]
        · simp only [hid, hm, if_false, Bool.false_eq_true, ite_false]
          rw [countP_mute_append_setVol]
  · rw [if_neg h]

theorem aggressive_mute (active : Nat) (streams : List AStream)
    (p : Bool × List Act) :
    (aggressivePass active streams p).2.countP (fun a => isMuteAct a)
    = p.2.countP (fun a => isMuteAct a) := by
  unfold aggressivePass
  by_cases h : (!p.1 && !streams.isEmpty) = true
  · rw [if_pos h]
    clear h
    induction streams generalizing p with
    | nil => rfl
    | cons s rest ih =>
      rw [List.foldl_cons]
      rw [ih]
      cases hid : s.id with
      | none => rfl
      | some sid =>
        by_cases h1 : (active == 1) = true
        · simp only [hid, h1, if_true]
          rw [countP_mute_append_setVol]
        · by_cases h2 : (active == 2) = true
          · simp only [hid, h1, h2, if_true, if_false, Bool.false_eq_true,
              ite_false]
            rw [countP_mute_append_setVol]
          · by_cases h3 : (active == 3) = true
            · simp only [hid, h1, h2, h3, if_true, if_false,
                Bool.false_eq_true, ite_false]
              rw [countP_mute_append_setVol]
            · simp only [hid, h1, h2, h3, if_false, Bool.false_eq_true,
                ite_false]
  · rw [if_neg h]

theorem lrVivPass_mute : ∀ (streams : List AStream) (q : Bool × List Act),
    (lrVivPass streams q).2.countP (fun a => isMuteAct a)
    = q.2.countP (fun a => isMuteAct a) := by
  intro streams
  induction streams with
  | nil => intro q; rfl
  | cons s rest ih =>
    intro q
    simp only [lrVivPass, List.foldl_cons] at *
    rw [ih]
    cases hid : s.id with
    | none => rfl
    | some sid =>
      by_cases hc : (pyIn "vivaldi" (lstr s.app_name)
          || pyIn "vivaldi" (lstr s.binary)) = true
      · simp only [hid, hc, if_true]
        rw [countP_mute_append_setVol]
      · simp only [hid, hc, if_false, Bool.false_eq_true, ite_false]

theorem lrPidPass_mute (apid : Option String) :
    ∀ (streams : List AStream) (q : Bool × List Act),
    (lrPidPass apid streams q).2.countP (fun a => isMuteAct a)
    = q.2.countP (fun a => isMuteAct a) := by
  intro streams
  induction streams with
  | nil => intro q; rfl
  | cons s rest ih =>
    intro q
    simp only [lrPidPass, List.foldl_cons] at *
    rw [ih]
    cases hid : s.id with
    | none => rfl
    | some sid =>
      by_cases hc : (s.pid == apid) = true
      · simp only [hid, hc, if_true]
        rw [countP_mute_append_setVol]
      · simp only [hid, hc, if_false, Bool.false_eq_true, ite_false]

theorem lrChromPass_mute : ∀ (streams : List AStream) (q : Bool × List Act),
    (lrChromPass streams q).2.countP (fun a => isMuteAct a)
    = q.2.countP (fun a => isMuteAct a) := by
  intro streams
  induction streams with
  | nil => intro q; rfl
  | cons s rest ih =>
    intro q
    simp only [lrChromPass, List.foldl_cons] at *
    rw [ih]
    cases hid : s.id with
    | none => rfl
    | some sid =>
      by_cases h1 : (pyIn "chromium" (lstr s.app_name) && !q.1) = true
      · simp only [hid, h1, if_true]
        rw [countP_mute_append_setVol]
      · by_cases h2 : (pyIn "chrome" (lstr s.app_name)
            && !(pyIn "google" (lstr s.app_name)) && !q.1) = true
        · simp only [hid, h1, h2, if_true, if_false, Bool.false_eq_true,
            ite_false]
          rw [countP_mute_append_setVol]
        · simp only [hid, h1, h2, if_false, Bool.false_eq_true, ite_false]

theorem lastResort1_mute (active : Nat) (streams : List AStream)
    (apidB : Option (Option String)) (acts : List Act) :
    (lastResort1 active streams apidB acts).1.countP (fun a => isMuteAct a)
    = acts.countP (fun a => isMuteAct a) := by
  unfold lastResort1
  by_cases h0 : (active == 1 && !streams.isEmpty) = true
  · simp only [h0, if_true]
    by_cases h1 : (!(lrVivPass streams (false, acts)).1) = true
    · simp only [h1, if_true]
      cases apidB with
      | none => exact lrVivPass_mute streams _
      | some apid =>
        by_cases h2 : otruthy apid = true
        · simp only [h2, if_true]
          by_cases h3 : (!(lrPidPass apid streams
              (false, (lrVivPass streams (false, acts)).2)).1) = true
          · simp only [h3, if_true]
            rw [lrChromPass_mute, lrPidPass_mute, lrVivPass_mute]
          · simp only [h3, if_false, Bool.false_eq_true, ite_false]
            rw [lrPidPass_mute, lrVivPass_mute]
        · simp only [h2, if_false, Bool.false_eq_true, ite_false,
            Bool.not_false, if_true]
          rw [lrChromPass_mute, lrVivPass_mute]
    · simp only [h1, if_false, Bool.false_eq_true, ite_false]
      exact lrVivPass_mute streams _
  · simp only [h0, if_false, Bool.false_eq_true, ite_false]

theorem special2a_mute (apidB : Option (Option String)) :
    ∀ (streams : List AStream) (acts : List Act),
    (special2a apidB streams acts).1.countP (fun a => isMuteAct a)
    = acts.countP (fun a => isMuteAct a) := by
  intro streams
  induction streams with
  | nil => intro acts; rfl
  | cons s rest ih =>
    intro acts
    cases hid : s.id with
    | none => simp only [special2a, hid]; exact ih acts
    | some sid =>
      by_cases hc : (pyIn "chromium" (lstr s.app_name)
          && !(pyIn "google chrome" (lstr s.app_name))) = true
      · cases apidB with
        | none => simp only [special2a, hid, hc, if_true]
        | some apid =>
          by_cases hp : (!(otruthy apid && s.pid == apid)) = true
          · simp only [special2a, hid, hc, hp, if_true]
            rw [ih, countP_mute_append_setVol]
          · simp only [special2a, hid, hc, hp, if_true, if_false,
              Bool.false_eq_true, ite_false]
            exact ih acts
      · simp only [special2a, hid, hc, if_false, Bool.false_eq_true,
          ite_false]
        exact ih acts

theorem special2b_mute : ∀ (streams : List AStream) (acts : List Act),
    (special2b streams acts).countP (fun a => isMuteAct a)
    = acts.countP (fun a => isMuteAct a) := by
  intro streams
  induction streams with
  | nil => intro acts; rfl
  | cons s rest ih =>
    intro acts
    simp only [special2b, List.foldl_cons] at *
    rw [ih]
    cases hid : s.id with
    | none => rfl
    | some sid =>
      by_cases hc : pyIn "google chrome" (lstr s.app_name) = true
      · simp only [hid, hc, if_true]
        rw [countP_mute_append_setVol]
      · simp only [hid, hc, if_false, Bool.false_eq_true, ite_false]

theorem special2_mute (active : Nat) (streams : List AStream)
    (apidB : Option (Option String)) (acts : List Act) :
    (special2 active streams apidB acts).1.countP (fun a => isMuteAct a)
    = acts.countP (fun a => isMuteAct a) := by
  unfold special2
  by_cases h0 : (active == 2 && !streams.isEmpty) = true
  · simp only [h0, if_true]
    rcases hsa : special2a apidB streams acts with ⟨acts1, err1⟩
    have := special2a_mute apidB streams acts
    rw [hsa] at this
    simp only at this
    cases err1 with
    | none => simp only []; rw [special2b_mute, this]
    | some e => simpa using this
  · simp only [h0, if_false, Bool.false_eq_true, ite_false]

/-- `adjust_stream_volumes` issues volume operations only — never a mute. -/
theorem adjust_stream_volumes_mute (active : Nat) (streams : List AStream)
    (reg : Reg) (winPid : String → Option String) :
    (adjust_stream_volumes active streams reg winPid).1.countP
      (fun a => isMuteAct a) = 0 := by
  unfold adjust_stream_volumes
  have hfa : (firstAttempt active streams reg winPid).1.acts.countP
      (fun a => isMuteAct a) = 0 := by
    unfold firstAttempt
    by_cases h : (active ≤ 3 && otruthy (reg.get active)) = true
    · simp only [h, if_true]
      rw [rescue1_mute, pass1_mute]
      rfl
    · simp only [h, if_false, Bool.false_eq_true, ite_false]
      rfl
  rcases hlr : lastResort1 active streams
      (firstAttempt active streams reg winPid).2
      (aggressivePass active streams
        ((firstAttempt active streams reg winPid).1.success,
         (firstAttempt active streams reg winPid).1.acts)).2
    with ⟨actsL, errL⟩
  have hlrm := lastResort1_mute active streams
      (firstAttempt active streams reg winPid).2
      (aggressivePass active streams
        ((firstAttempt active streams reg winPid).1.success,
         (firstAttempt active streams reg winPid).1.acts)).2
  rw [hlr] at hlrm
  simp only at hlrm
  have haggm := aggressive_mute active streams
      ((firstAttempt active streams reg winPid).1.success,
       (firstAttempt active streams reg winPid).1.acts)
  simp only at haggm
  rw [hfa] at haggm
  rw [haggm] at hlrm
  simp only [hlr]
  cases errL with
  | some e => simpa using hlrm
  | none =>
    rcases hsp : special2 active streams
        (firstAttempt active streams reg winPid).2 actsL with ⟨actsS, errS⟩
    have hspm := special2_mute active streams
        (firstAttempt active streams reg winPid).2 actsL
    rw [hsp] at hspm
    simp only at hspm
    dsimp only
    rw [hsp]
    cases errS <;> (dsimp only; rw [hspm]; exact hlrm)

theorem countP_mute_focusReqs : ∀ (l : List String),
    ((l.map Act.focusReq).countP (fun a => isMuteAct a)) = 0 := by
  intro l
  induction l with
  | nil => rfl
  | cons a t ih => simp [List.countP_cons, isMuteAct, ih]

theorem activateBody_spec (env : Env) (n : Nat) (st' : GState) (reg : Reg)
    (tr0 : List Act) (h0 : tr0.countP (fun a => isMuteAct a) = 0) :
    ((∀ e, (activateBody env n st' reg tr0).1 ≠ Except.error e) →
      ((activateBody env n st' reg tr0).1 = Except.ok true
        ↔ list_audio_streams env.playbackDump ≠ []))
    ∧ (list_microphone_streams env.captureDump = [] →
        (activateBody env n st' reg tr0).2.2.countP
          (fun a => isMuteAct a) = 0) := by
  unfold activateBody
  by_cases he : (list_audio_streams env.playbackDump).isEmpty = true
  · simp only [he, if_true]
    constructor
    · intro _
      constructor
      · intro h
        exact absurd h (by simp)
      · intro hne
        have : list_audio_streams env.playbackDump = [] := by
          simpa using he
        exact absurd this hne
    · intro _
      exact h0
  · simp only [he, if_false, Bool.false_eq_true, ite_false]
    have hne : list_audio_streams env.playbackDump ≠ [] := by
      simpa using he
    rcases ha1 : adjust_stream_volumes n (list_audio_streams env.playbackDump)
        reg env.winPid with ⟨acts1, r1⟩
    have ha1m := adjust_stream_volumes_mute n
      (list_audio_streams env.playbackDump) reg env.winPid
    rw [ha1] at ha1m
    simp only at ha1m
    dsimp only
    cases r1 with
    | error e =>
      dsimp only
      constructor
      · intro hno
        exact absurd rfl (hno e)
      · intro _
        rw [List.countP_append, h0, ha1m]
    | ok b =>
      dsimp only
      by_cases hm : (list_microphone_streams env.captureDump).isEmpty = true
      · simp only [hm, if_true]
        constructor
        · intro _
          simp only [true_iff]
          exact hne
        · intro _
          rw [List.countP_append, List.countP_append, h0, ha1m]
          rfl
      · simp only [hm, if_false, Bool.false_eq_true, ite_false]
        have hmicne : list_microphone_streams env.captureDump ≠ [] := by
          simpa using hm
        rcases ha2 : adjust_microphone_streams n
            (list_microphone_streams env.captureDump) reg env.winPid
          with ⟨acts2, r2⟩
        dsimp only
        cases r2 with
        | error e =>
          dsimp only
          constructor
          · intro hno
            exact absurd rfl (hno e)
          · intro hmic
            exact absurd hmic hmicne
        | ok b2 =>
          dsimp only
          constructor
          · intro _
            simp only [true_iff]
            exact hne
          · intro hmic
            exact absurd hmic hmicne

/-- A start state with Browser 1's window registered, used as the C5
witness (the volume adjustment then raises nothing). -/
def gs1 : GState :=
  { b1 := { idx := 1, exe_name := "vivaldi-stable", title := "Browser 1" }
    b2 := { idx := 2, exe_name := "google-chrome", title := "Browser 2" }
    b3 := { idx := 3, exe_name := "brave-browser", title := "Browser 3" }
    reg := { w1 := some "w" } }

/-- C5 (amended): for a valid index, WHEN the volume adjustment does not
raise, `activate(n)` returns true iff the playback inventory is non-empty;
and an empty capture inventory entails no mute operation in the whole run.
The carve-out is necessary: see `C5_cex`. -/
theorem C5_amended (env : Env) (st : GState) (num : Int)
    (h1 : 1 ≤ num ∧ num ≤ 3) :
    ((∀ e, (Switcher.activate env num st).1 ≠ Except.error e) →
      ((Switcher.activate env num st).1 = Except.ok true
        ↔ list_audio_streams env.playbackDump ≠ []))
    ∧ (list_microphone_streams env.captureDump = [] →
        (Switcher.activate env num st).2.2.countP
          (fun a => isMuteAct a) = 0) := by
  obtain ⟨ha, hb⟩ := h1
  unfold Switcher.activate
  rw [if_neg (by simp; omega)]
  apply activateBody_spec
  rw [List.countP_append, countP_mute_focusReqs]
  rfl

set_option maxHeartbeats 3200000 in
theorem focus_idem (env : Env) (b : Browser) (reg : Reg) :
    (Browser.focus env (Browser.focus env b reg).browser
      (Browser.focus env b reg).reg).browser
        = (Browser.focus env b reg).browser
    ∧ (Browser.focus env (Browser.focus env b reg).browser
      (Browser.focus env b reg).reg).reg
        = (Browser.focus env b reg).reg := by
  cases hc1 : (otruthy b.window_id && env.focusById (b.window_id.getD "")) <;>
  cases hc2 : env.focusByTitle b.title <;>
  cases hcf3 : otruthy (if otruthy b.pid = true
      then env.findByPid (b.pid.getD "") else none) <;>
  cases hhf3 : env.focusById ((if otruthy b.pid = true
      then env.findByPid (b.pid.getD "") else none).getD "") <;>
  cases hcf4 : otruthy (if (pyLower b.exe_name == "brave"
      || pyLower b.exe_name == "brave-browser") = true
      then env.findByClass "Brave" else none) <;>
  cases hhf4 : env.focusById ((if (pyLower b.exe_name == "brave"
      || pyLower b.exe_name == "brave-browser") = true
      then env.findByClass "Brave" else none).getD "") <;>
  simp only [Browser.focus, hc1, hc2, hcf3, hhf3, hcf4, hhf4, Bool.true_and,
    Bool.false_and, Bool.and_true, Bool.and_false, Bool.and_self,
    Bool.false_eq_true, eq_self_iff_true, if_true, if_false, ite_true,
    ite_false, Reg.set_set, apply_ite FocusRes.browser, apply_ite FocusRes.reg,
    ite_self] <;>
  trivial

/-- C5 counterexample, refuting the literal reading of the contract: with a
non-empty playback inventory but browser 1's window unregistered,
`activate(1)` does not return a boolean at all — it propagates the
`UnboundLocalError` from `adjust_stream_volumes`. -/
theorem C5_cex :
    (Switcher.activate env0 1 gs0).1
        = Except.error "UnboundLocalError: active_pid"
    ∧ list_audio_streams env0.playbackDump ≠ [] := by
  decide

theorem C5_amended_w :
    ((Switcher.activate env0 1 gs1).1 = Except.ok true
      ↔ list_audio_streams env0.playbackDump ≠ [])
    ∧ (Switcher.activate env0 1 gs1).2.2.countP
        (fun a => isMuteAct a) = 0 :=
  ⟨(C5_amended env0 gs1 1 (by decide)).1
      (fun e hc => by
        have hok : (Switcher.activate env0 1 gs1).1 = Except.ok true := by
          decide
        rw [hok] at hc
        exact Except.noConfusion hc),
   (C5_amended env0 gs1 1 (by decide)).2 (by decide)⟩

/-- `browsers[n-1]` read back after a store returns the stored instance. -/
theorem getB_put (st : GState) (n : Nat) (b : Browser) (r : Reg) :
    (st.put n b r).getB n = b := by
  rcases n with _ | _ | _ | k <;> rfl

/-- The registry read back after a store is the stored registry. -/
theorem reg_put (st : GState) (n : Nat) (b : Browser) (r : Reg) :
    (st.put n b r).reg = r := by
  rcases n with _ | _ | _ | k <;> rfl

/-- Storing the same instance and registry twice equals storing once. -/
theorem put_put (st : GState) (n : Nat) (b : Browser) (r : Reg) :
    (st.put n b r).put n b r = st.put n b r := by
  rcases n with _ | _ | _ | k <;> rfl

/-- The audio body is determined by the environment, index and registry: it
leaves the state alone and appends a fixed action suffix to any trace. -/
theorem activateBody_split (env : Env) (n : Nat) (reg : Reg) :
    ∃ res rest, ∀ (st' : GState) (tr0 : List Act),
      activateBody env n st' reg tr0 = (res, st', tr0 ++ rest) := by
  by_cases he : (list_audio_streams env.playbackDump).isEmpty = true
  · exact ⟨Except.ok false, [], fun st' tr0 => by
      simp [activateBody, he]⟩
  · rcases ha1 : adjust_stream_volumes n (list_audio_streams env.playbackDump)
        reg env.winPid with ⟨acts1, r1⟩
    cases r1 with
    | error e =>
      exact ⟨Except.error e, acts1, fun st' tr0 => by
        simp [activateBody, he, ha1, List.append_assoc]⟩
    | ok b =>
      by_cases hm : (list_microphone_streams env.captureDump).isEmpty = true
      · exact ⟨Except.ok true, acts1 ++ [Act.fetchCapture], fun st' tr0 => by
          simp [activateBody, he, ha1, hm, List.append_assoc]⟩
      · rcases ha2 : adjust_microphone_streams n
            (list_microphone_streams env.captureDump) reg env.winPid
          with ⟨acts2, r2⟩
        cases r2 with
        | error e2 =>
          exact ⟨Except.error e2, acts1 ++ [Act.fetchCapture] ++ acts2,
            fun st' tr0 => by
              simp [activateBody, he, ha1, hm, ha2, List.append_assoc]⟩
        | ok b2 =>
          exact ⟨Except.ok true, acts1 ++ [Act.fetchCapture] ++ acts2,
            fun st' tr0 => by
              simp [activateBody, he, ha1, hm, ha2, List.append_assoc]⟩

/-- Unfolding `Switcher.activate` on a valid index. -/
theorem activate_eq (env : Env) (num : Int) (st : GState)
    (hv : (decide (num < 1) || decide (3 < num)) = false) :
    Switcher.activate env num st
      = activateBody env num.toNat
          (st.put num.toNat
            (Browser.focus env (st.getB num.toNat) st.reg).browser
            (Browser.focus env (st.getB num.toNat) st.reg).reg)
          (Browser.focus env (st.getB num.toNat) st.reg).reg
          ((Browser.focus env (st.getB num.toNat) st.reg).reqs.map
              Act.focusReq
            ++ [Act.fetchPlayback]) := by
  simp only [Switcher.activate, hv, Bool.false_eq_true, if_false]

/-- The focus requests and the playback fetch are not pactl audio calls. -/
theorem filter_audio_focus (l : List String) :
    (l.map Act.focusReq ++ [Act.fetchPlayback]).filter
      (fun a => isAudioAct a) = [] := by
  induction l with
  | nil => rfl
  | cons x xs ih => simp [isAudioAct, ih]

/-- C6: `activate(n)` is idempotent when the environment does not change:
the second invocation returns the same outcome, leaves the same state, and
issues exactly the same pactl volume/mute operations as the first. -/
theorem C6_activate_idempotent (env : Env) (num : Int) (st : GState) :
    (Switcher.activate env num (Switcher.activate env num st).2.1).1
      = (Switcher.activate env num st).1
    ∧ (Switcher.activate env num (Switcher.activate env num st).2.1).2.1
      = (Switcher.activate env num st).2.1
    ∧ ((Switcher.activate env num (Switcher.activate env num st).2.1).2.2).filter
          (fun a => isAudioAct a)
      = ((Switcher.activate env num st).2.2).filter
          (fun a => isAudioAct a) := by
  cases hb : (decide (num < 1) || decide (3 < num)) with
  | true =>
    simp [Switcher.activate, hb]
  | false =>
    obtain ⟨res, rest, hs⟩ := activateBody_split env num.toNat
        (Browser.focus env (st.getB num.toNat) st.reg).reg
    have hfi := focus_idem env (st.getB num.toNat) st.reg
    rw [activate_eq env num st hb]
    rw [hs]
    dsimp only
    rw [activate_eq _ _ _ hb, getB_put, reg_put, hfi.1, hfi.2, put_put, hs]
    dsimp only
    refine ⟨rfl, rfl, ?_⟩
    have h1 : ∀ (l : List String),
        ((l.map Act.focusReq ++ [Act.fetchPlayback]) ++ rest).filter
            (fun a => isAudioAct a)
          = rest.filter (fun a => isAudioAct a) := fun l => by
      rw [List.filter_append, filter_audio_focus, List.nil_append]
    rw [h1, h1]
